import Mathlib

/-!
Verification of the OrbiSyncNode library core (ESP8266/ESP32 IoT node client).

The development shallowly embeds the C++ sources as pure Lean functions.
The repository bundles several coexisting implementation variants of the
OrbiSyncNode class; the richest variant (the one with pairing, approve,
register_ack parsing and proxy_request handling) is embedded for the state
machine, tunnel and base64 claims, and the simpler variant is embedded where
it alone implements a feature (heartbeat, identity suffix derivation).

Machine integers (uint32_t) are modelled as Nat with explicit reduction
mod 2^32 where the source can overflow; bytes (uint8_t) are Nat constrained
to be < 256 in theorem hypotheses.  C shift/mask operations on bytes are
rendered with the corresponding division/multiplication/modulus arithmetic.
-/

set_option maxRecDepth 4000

namespace OrbiSync

/-! ## Base64 codec (richest variant, OrbiSyncNode.cpp)

static const char kBase64Chars[] = "ABC…789+/";
static size_t base64Decode(uint8_t* out, const char* in, size_t inLen);
static size_t base64Encode(char* out, const uint8_t* in, size_t inLen);
-/

/-- The base64 alphabet kBase64Chars from the source. -/
def kBase64Chars : List Char :=
  "ABCDEFGHIJKLMNOPQRSTUVWXYZabcdefghijklmnopqrstuvwxyz0123456789+/".toList

/-- C array indexing kBase64Chars[i] (indices used by the encoder are < 64). -/
def b64Char (i : Nat) : Char := kBase64Chars.getD i 'A'

/-- base64Encode: 3-byte groups become 4 alphabet chars; a 2-byte tail becomes
3 chars and one = pad; a 1-byte tail becomes 2 chars and two = pads.
Shifts and masks on bytes are written as arithmetic:
(x >> 2) & 0x3F = (x / 4) % 64, ((x & 3) << 4) | (y >> 4) = (x % 4) * 16 + y / 16
(the or-ed fields are disjoint for byte inputs), and so on. -/
def base64Encode : List Nat → List Char
  | a :: b :: c :: rest =>
      b64Char ((a / 4) % 64) ::
      b64Char ((a % 4) * 16 + b / 16) ::
      b64Char ((b % 16) * 4 + c / 64) ::
      b64Char (c % 64) :: base64Encode rest
  | [a, b] =>
      [b64Char ((a / 4) % 64), b64Char ((a % 4) * 16 + b / 16),
       b64Char ((b % 16) * 4), '=']
  | [a] =>
      [b64Char ((a / 4) % 64), b64Char ((a % 4) * 16), '=', '=']
  | [] => []

/-- The character-class dispatch of the source decoder: A-Z, a-z, 0-9, +, /
map to their 6-bit values, anything else (except =, handled by the caller)
is skipped. -/
def decodeB64Char (c : Char) : Option Nat :=
  if 'A' ≤ c ∧ c ≤ 'Z' then some (c.toNat - 'A'.toNat)
  else if 'a' ≤ c ∧ c ≤ 'z' then some (c.toNat - 'a'.toNat + 26)
  else if '0' ≤ c ∧ c ≤ '9' then some (c.toNat - '0'.toNat + 52)
  else if c = '+' then some 62
  else if c = '/' then some 63
  else none

/-- The decoder loop: state (val, valb) starts at (0, -8); each alphabet char
shifts 6 fresh bits into val; once valb ≥ 0, the byte (val >> valb) & 0xFF is
emitted and valb drops by 8; an = terminates; other chars are skipped. -/
def base64DecodeAux : Nat → Int → List Char → List Nat
  | _, _, [] => []
  | val, valb, c :: rest =>
      if c = '=' then []
      else
        match decodeB64Char c with
        | none => base64DecodeAux val valb rest
        | some d =>
            if 0 ≤ valb + 6 then
              ((val * 64 + d) / 2 ^ (valb + 6).toNat % 256) ::
                base64DecodeAux (val * 64 + d) (valb + 6 - 8) rest
            else
              base64DecodeAux (val * 64 + d) (valb + 6) rest

/-- base64Decode from the source (out-buffer writes collected as a list). -/
def base64Decode (s : List Char) : List Nat := base64DecodeAux 0 (-8) s

theorem decodeB64Char_b64Char : ∀ w < 64, decodeB64Char (b64Char w) = some w := by
  decide

theorem b64Char_ne_eq : ∀ w < 64, b64Char w ≠ '=' := by
  decide

/-- One decoder step on a valid alphabet character. -/
theorem base64DecodeAux_cons (v : Nat) (valb : Int) (w : Nat) (hw : w < 64)
    (rest : List Char) :
    base64DecodeAux v valb (b64Char w :: rest) =
      if 0 ≤ valb + 6 then
        ((v * 64 + w) / 2 ^ (valb + 6).toNat % 256) ::
          base64DecodeAux (v * 64 + w) (valb + 6 - 8) rest
      else
        base64DecodeAux (v * 64 + w) (valb + 6) rest := by
  have hne : b64Char w ≠ '=' := b64Char_ne_eq w hw
  have hd : decodeB64Char (b64Char w) = some w := decodeB64Char_b64Char w hw
  simp [base64DecodeAux, hne, hd]

theorem base64DecodeAux_pad (v : Nat) (valb : Int) (rest : List Char) :
    base64DecodeAux v valb ('=' :: rest) = [] := by
  simp [base64DecodeAux]

/-- Decoder step at phase -8: the 6 bits are buffered, no byte is emitted. -/
theorem base64DecodeAux_m8 (v w : Nat) (hw : w < 64) (rest : List Char) :
    base64DecodeAux v (-8) (b64Char w :: rest) =
      base64DecodeAux (v * 64 + w) (-2) rest := by
  rw [base64DecodeAux_cons v (-8) w hw rest]
  norm_num

/-- Decoder step at phase -2: a byte is emitted from bit offset 4. -/
theorem base64DecodeAux_m2 (v w : Nat) (hw : w < 64) (rest : List Char) :
    base64DecodeAux v (-2) (b64Char w :: rest) =
      ((v * 64 + w) / 16 % 256) :: base64DecodeAux (v * 64 + w) (-4) rest := by
  rw [base64DecodeAux_cons v (-2) w hw rest]
  norm_num [show ((4 : Int)).toNat = 4 from rfl]

/-- Decoder step at phase -4: a byte is emitted from bit offset 2. -/
theorem base64DecodeAux_m4 (v w : Nat) (hw : w < 64) (rest : List Char) :
    base64DecodeAux v (-4) (b64Char w :: rest) =
      ((v * 64 + w) / 4 % 256) :: base64DecodeAux (v * 64 + w) (-6) rest := by
  rw [base64DecodeAux_cons v (-4) w hw rest]
  norm_num [show ((2 : Int)).toNat = 2 from rfl]

/-- Decoder step at phase -6: a byte is emitted from bit offset 0. -/
theorem base64DecodeAux_m6 (v w : Nat) (hw : w < 64) (rest : List Char) :
    base64DecodeAux v (-6) (b64Char w :: rest) =
      ((v * 64 + w) % 256) :: base64DecodeAux (v * 64 + w) (-8) rest := by
  rw [base64DecodeAux_cons v (-6) w hw rest]
  norm_num

/-- Decoding an encoded stream from any accumulator value v at phase -8
reproduces the input bytes: the emitted bytes mask off the stale high bits. -/
theorem base64DecodeAux_base64Encode (bs : List Nat) (h : ∀ x ∈ bs, x < 256) :
    ∀ v : Nat, base64DecodeAux v (-8) (base64Encode bs) = bs := by
  induction bs using base64Encode.induct with
  | case1 a b c rest ih =>
    intro v
    have ha : a < 256 := h a (by simp)
    have hb : b < 256 := h b (by simp)
    have hc : c < 256 := h c (by simp)
    have ih' := ih (fun x hx => h x (by simp [hx]))
    rw [base64Encode, base64DecodeAux_m8 _ _ (by omega),
      base64DecodeAux_m2 _ _ (by omega), base64DecodeAux_m4 _ _ (by omega),
      base64DecodeAux_m6 _ _ (by omega), ih']
    refine congrArg₂ _ (by omega) (congrArg₂ _ (by omega) (congrArg₂ _ (by omega) rfl))
  | case2 a b =>
    intro v
    have ha : a < 256 := h a (by simp)
    have hb : b < 256 := h b (by simp)
    rw [base64Encode, base64DecodeAux_m8 _ _ (by omega),
      base64DecodeAux_m2 _ _ (by omega), base64DecodeAux_m4 _ _ (by omega),
      base64DecodeAux_pad]
    refine congrArg₂ _ (by omega) (congrArg₂ _ (by omega) rfl)
  | case3 a =>
    intro v
    have ha : a < 256 := h a (by simp)
    rw [base64Encode, base64DecodeAux_m8 _ _ (by omega),
      base64DecodeAux_m2 _ _ (by omega), base64DecodeAux_pad]
    refine congrArg₂ _ (by omega) rfl
  | case4 =>
    intro v
    rfl

/-- C9: for every byte string b, the tunnel decoder inverts the tunnel encoder:
base64Decode (base64Encode b) = b, and in particular the decoded length equals
the original length. -/
theorem base64_roundtrip (bs : List Nat) (h : ∀ x ∈ bs, x < 256) :
    base64Decode (base64Encode bs) = bs ∧
      (base64Decode (base64Encode bs)).length = bs.length := by
  have h0 := base64DecodeAux_base64Encode bs h 0
  exact ⟨h0, by rw [base64Decode, h0]⟩

/-- Witness: the round-trip theorem applied at the concrete byte string
[0, 77, 255, 1, 2]. -/
theorem base64_roundtrip_witness :
    base64Decode (base64Encode [0, 77, 255, 1, 2]) = [0, 77, 255, 1, 2] :=
  (base64_roundtrip [0, 77, 255, 1, 2] (by decide)).1

/-! ## Config (richest variant, OrbiSyncNode.h)

Only the fields the embedded functions read.  A C const char* that may be
null is an Option String; the C check (p && p[0]) is cstrNonempty. -/

structure Config where
  hubBaseUrl : Option String := none
  slotId : Option String := none
  firmwareVersion : Option String := none
  heartbeatIntervalMs : Nat := 0
  ledPin : Int := -1
  machineIdPfx : Option String := none
  enableTunnel : Bool := false
  enableSelfApprove : Bool := false
  approveEndpointPath : Option String := none
  approveRetryMs : Nat := 0
  sessionEndpointPath : Option String := none
  preferRegisterBySlot : Bool := false
  loginToken : Option String := none
  maxTunnelBodyBytes : Nat := 0
  registerRetryMs : Nat := 0

/-- The C idiom (p && p[0]): pointer non-null and string non-empty. -/
def cstrNonempty : Option String → Bool
  | some s => !(s = "")
  | none => false

/-- cfgOrDefaultU32 / cfgOrDefaultSz from the source: a zero config value
selects the default. -/
def cfgOrDefault (v defv : Nat) : Nat := if v = 0 then defv else v

/-- ASCII string to bytes (the sources only build ASCII JSON bodies). -/
def strBytes (s : String) : List Nat := s.toList.map Char.toNat

/-! ## TunnelHttpResponseWriter (richest variant)

class TunnelHttpResponseWriter: statusCode_ = 200, headerCount_ = 0,
bodyLen_ = 0, ended_ = false at construction; body_ is a 2048-byte buffer,
headers_ holds at most TUNNEL_MAX_HEADERS = 8 entries with key[24]/value[80]
truncation, requestId_ is a 48-byte buffer. -/

structure RespWriter where
  requestId : String
  statusCode : Int
  headers : List (String × String)
  body : List Nat
  ended : Bool

/-- The snapshot sent by tunnelSendProxyResponse: a proxy_response JSON frame
with the writer's request id, status code, headers and base64-encoded body. -/
structure ProxyFrame where
  requestId : String
  statusCode : Int
  headers : List (String × String)
  bodyB64 : List Char
deriving DecidableEq

/-- Writer as constructed by tunnelHandleProxyRequest: requestId_ receives
strncpy(…, reqId, 47), i.e. the inbound id truncated to 47 bytes. -/
def initProxyWriter (reqId : String) : RespWriter :=
  { requestId := reqId.take 47, statusCode := 200, headers := [], body := [],
    ended := false }

def writerSetStatus (w : RespWriter) (code : Int) : RespWriter :=
  { w with statusCode := code }

/-- setHeader: dropped if 8 headers are already present; key truncated to 23
bytes and value to 79 bytes by the strncpy calls. -/
def writerSetHeader (w : RespWriter) (key value : String) : RespWriter :=
  if 8 ≤ w.headers.length then w
  else { w with headers := w.headers ++ [(key.take 23, value.take 79)] }

/-- write(data, len): ignored once ended; otherwise at most the remaining
room (2048 - bodyLen) bytes are appended, the excess is dropped. -/
def writerWrite (w : RespWriter) (data : List Nat) : RespWriter :=
  if w.ended then w
  else { w with body := w.body ++ data.take (2048 - w.body.length) }

/-- end(): a no-op when already ended; otherwise marks ended and hands the
snapshot to tunnelSendProxyResponse (the frame, whose actual transmission is
further gated by the WebSocket/serialization state). -/
def writerEnd (w : RespWriter) : RespWriter × Option ProxyFrame :=
  if w.ended then (w, none)
  else ({ w with ended := true },
        some { requestId := w.requestId, statusCode := w.statusCode,
               headers := w.headers, bodyB64 := base64Encode w.body })

/-- The public operations a user handler can perform on the writer. -/
inductive WriterOp where
  | setStatus (code : Int)
  | setHeader (key value : String)
  | write (data : List Nat)
  | endResponse

/-- Run a sequence of writer operations, collecting every frame handed to
tunnelSendProxyResponse. -/
def runWriterOps : RespWriter → List WriterOp → RespWriter × List ProxyFrame
  | w, [] => (w, [])
  | w, .setStatus c :: ops => runWriterOps (writerSetStatus w c) ops
  | w, .setHeader k v :: ops => runWriterOps (writerSetHeader w k v) ops
  | w, .write d :: ops => runWriterOps (writerWrite w d) ops
  | w, .endResponse :: ops =>
      let p := writerEnd w
      let q := runWriterOps p.1 ops
      (q.1, p.2.toList ++ q.2)

theorem runWriterOps_inv : ∀ (ops : List WriterOp) (w : RespWriter),
    w.body.length ≤ 2048 →
    (runWriterOps w ops).1.body.length ≤ 2048 ∧
      (runWriterOps w ops).2.length ≤ (if w.ended then 0 else 1) := by
  intro ops
  induction ops with
  | nil =>
    intro w hw
    constructor
    · exact hw
    · split <;> simp [runWriterOps]
  | cons op ops ih =>
    intro w hw
    cases op with
    | setStatus c =>
      have h := ih (writerSetStatus w c) hw
      simpa [runWriterOps, writerSetStatus] using h
    | setHeader k v =>
      have h := ih (writerSetHeader w k v) (by simp [writerSetHeader]; split <;> simp [hw])
      have he : (writerSetHeader w k v).ended = w.ended := by
        simp [writerSetHeader]; split <;> simp
      rw [show runWriterOps w (.setHeader k v :: ops) = runWriterOps (writerSetHeader w k v) ops from rfl]
      rw [he] at h
      exact h
    | write d =>
      have hb : (writerWrite w d).body.length ≤ 2048 := by
        simp only [writerWrite]
        split
        · exact hw
        · simp only [List.length_append, List.length_take]
          omega
      have h := ih (writerWrite w d) hb
      have he : (writerWrite w d).ended = w.ended := by
        simp [writerWrite]; split <;> simp
      rw [show runWriterOps w (.write d :: ops) = runWriterOps (writerWrite w d) ops from rfl]
      rw [he] at h
      exact h
    | endResponse =>
      by_cases hwend : w.ended
      · have hend : writerEnd w = (w, none) := by simp [writerEnd, hwend]
        have h := ih w hw
        simp only [runWriterOps, hend, Option.toList_none, List.nil_append]
        rw [if_pos hwend] at h ⊢
        exact h
      · have hend : writerEnd w =
            ({ w with ended := true },
             some { requestId := w.requestId, statusCode := w.statusCode,
                    headers := w.headers, bodyB64 := base64Encode w.body }) := by
          simp [writerEnd, hwend]
        have h := ih { w with ended := true } hw
        rw [if_pos rfl] at h
        simp only [runWriterOps, hend, Option.toList_some, List.singleton_append,
          List.length_cons]
        rw [if_neg hwend]
        exact ⟨h.1, by omega⟩

/-- C10: starting from the writer instance built for a proxy request, any
sequence of write/end (and setStatus/setHeader) calls keeps the accumulated
body within the 2048-byte buffer and hands at most one proxy_response frame
to the sender; a write after end leaves the writer unchanged, and end is
idempotent (a second end emits nothing and changes nothing). -/
theorem writer_safety (reqId : String) (ops : List WriterOp) :
    ((runWriterOps (initProxyWriter reqId) ops).1.body.length ≤ 2048 ∧
      (runWriterOps (initProxyWriter reqId) ops).2.length ≤ 1) ∧
    (∀ w : RespWriter, ∀ d : List Nat, w.ended = true → writerWrite w d = w) ∧
    (∀ w : RespWriter, writerEnd (writerEnd w).1 = ((writerEnd w).1, none)) := by
  refine ⟨?_, ?_, ?_⟩
  · have h := runWriterOps_inv ops (initProxyWriter reqId) (by simp [initProxyWriter])
    refine ⟨h.1, le_trans h.2 ?_⟩
    split <;> omega
  · intro w d hw
    simp [writerWrite, hw]
  · intro w
    by_cases hw : w.ended
    · simp [writerEnd, hw]
    · simp [writerEnd, hw]

/-- Witness for writer_safety: a concrete run that overflows the buffer and
ends twice still stays within bounds and emits exactly one frame. -/
theorem writer_safety_witness :
    ((runWriterOps (initProxyWriter "r1")
        [.write (List.replicate 4000 65), .endResponse, .write [66], .endResponse]).1.body.length ≤ 2048 ∧
      (runWriterOps (initProxyWriter "r1")
        [.write (List.replicate 4000 65), .endResponse, .write [66], .endResponse]).2.length ≤ 1) ∧
    (∀ w : RespWriter, ∀ d : List Nat, w.ended = true → writerWrite w d = w) ∧
    (∀ w : RespWriter, writerEnd (writerEnd w).1 = ((writerEnd w).1, none)) :=
  writer_safety "r1" [.write (List.replicate 4000 65), .endResponse, .write [66], .endResponse]

/-! ## Tunnel inbound message handling (richest variant)

tunnelHandleMessage parses the frame into a JSON document and dispatches:
an RPC envelope (both id and path present), register_ack, HTTP_REQ,
proxy_request.  The model below captures the parsed document and the frames
the node sends back; serialization-buffer fits and the WebSocket connection
state are environment inputs (the source checks them with
n > 0 && n < sizeof(buf) and s_wsClient->isConnected()). -/

/-- A JSON correlation id as ArduinoJson represents the ones the code
round-trips: a string (is<const char*>) or an integer (as<long>). -/
inductive RpcId where
  | str (s : String)
  | num (n : Int)
deriving DecidableEq

/-- The parsed inbound document: only the keys the dispatcher reads.
A missing key is none; doc["k"] | "dflt" is (·.getD "dflt"). -/
structure TunnelDoc where
  id : Option RpcId := none
  path : Option String := none
  method : Option String := none
  type : Option String := none
  streamId : Option String := none
  requestId : Option String := none
  query : Option String := none
  bodyB64 : Option String := none
  headers : List (String × String) := []
  bodyIsObj : Bool := false
  bodyValue : Option Int := none

/-- Frames the handler can send back over the tunnel. -/
inductive OutFrame where
  | rpcRes (id : RpcId) (status : Int)
  | httpRes (streamId : String) (status : Int) (body : String)
  | proxyRes (f : ProxyFrame)
deriving DecidableEq

/-- Environment of one message delivery: WebSocket connection state and the
outcomes of the fixed-size serialization buffers. -/
structure TunnelEnv where
  wsConnected : Bool := true
  mainFits : Bool := true
  errFits : Bool := true
  proxyFits : Bool := true

/-- strstr scanning: does the needle occur as a contiguous run of the
haystack. -/
def strstrContains (needle : List Char) : List Char → Bool
  | [] => needle.isEmpty
  | c :: rest => needle.isPrefixOf (c :: rest) || strstrContains needle rest

/-- strstr(path, "led/on") != nullptr. -/
def containsLedOn (path : String) : Bool :=
  strstrContains "led/on".toList path.toList

/-- The built-in body written before end() in tunnelHandleProxyRequest:
either the led acknowledgement or the minimal ok body carrying the request
id; the latter is skipped when the 128-byte snprintf buffer would overflow. -/
def proxyBuiltinBody (path reqId : String) : String :=
  if containsLedOn path then "\x7b\"ok\":true,\"value\":1\x7d"
  else
    let minBody := "\x7b\"ok\":true,\"request_id\":\"" ++ reqId ++ "\"\x7d"
    if minBody.length < 128 then minBody else ""

/-- tunnelSendProxyResponse: early return when the WebSocket is not
connected; the frame is sent only when the 1536-byte buffer fits. -/
def sendProxyFrame (env : TunnelEnv) (f : ProxyFrame) : List OutFrame :=
  if env.wsConnected && env.proxyFits then [.proxyRes f] else []

/-- The trailing part of tunnelHandleProxyRequest after the built-in end():
the user handler's ops run on the writer, then if(!res.ended_) res.end();
every frame handed over goes through tunnelSendProxyResponse. -/
def proxyFinish (p : RespWriter × Option ProxyFrame) (handlerOps : List WriterOp)
    (env : TunnelEnv) : List OutFrame :=
  ((p.2.toList ++ (runWriterOps p.1 handlerOps).2 ++
      (if (runWriterOps p.1 handlerOps).1.ended then ([] : List ProxyFrame)
       else (writerEnd (runWriterOps p.1 handlerOps).1).2.toList)).map
    (sendProxyFrame env)).flatten

/-- tunnelHandleProxyRequest: the frames sent for one proxy_request.
The request id is doc["request_id"] | doc["req_id"] | ""; when the body
estimate (strlen(b64)/4)*3+4 exceeds max_tunnel_body_bytes (default 4096) a
413 "Payload Too Large" response is written and ended; otherwise the built-in
200 response is written and ended; only then the user handler (handlerOps)
runs on the already-ended writer. -/
def tunnelHandleProxyRequest (cfg : Config) (doc : TunnelDoc)
    (handlerOps : List WriterOp) (env : TunnelEnv) : List OutFrame :=
  if (doc.bodyB64.getD "" ≠ "") ∧
      ((doc.bodyB64.getD "").length / 4) * 3 + 4 >
        cfgOrDefault cfg.maxTunnelBodyBytes 4096 then
    ((writerEnd
        (writerWrite
          (writerSetHeader
            (writerSetStatus (initProxyWriter (doc.requestId.getD "")) 413)
            "Content-Type" "text/plain")
          (strBytes "Payload Too Large"))).2.toList.map (sendProxyFrame env)).flatten
  else
    proxyFinish
      (writerEnd
        (writerWrite
          (writerSetHeader
            (writerSetStatus (initProxyWriter (doc.requestId.getD "")) 200)
            "Content-Type" "application/json")
          (strBytes (proxyBuiltinBody (doc.path.getD "/") (doc.requestId.getD "")))))
      handlerOps env

/-- The led route of the HTTP_REQ branch: status and body text as selected
from the path and the configured led pin. -/
def httpReqRoute (cfg : Config) (path : String) : Int × String :=
  let ledOn := path = "/led/on"
  let ledOff := path = "/led/off"
  if ledOn && decide (0 ≤ cfg.ledPin) then (200, "OK LED ON")
  else if ledOff && decide (0 ≤ cfg.ledPin) then (200, "OK LED OFF")
  else if (ledOn || ledOff) && decide (cfg.ledPin < 0) then
    (500, "LED pin not configured")
  else (200, "OK")

/-- tunnelHandleMessage: the frames sent back for one parsed inbound
document, following the source dispatch: RPC envelope when both id and path
keys are present, then strcmp chains on type ("" returns early), where the
register_ack branch sends nothing and unknown types are ignored. -/
def tunnelHandleMessage (cfg : Config) (doc : TunnelDoc)
    (handlerOps : List WriterOp) (env : TunnelEnv) : List OutFrame :=
  if doc.id.isSome && doc.path.isSome then
    -- RPC envelope: respond with the same id, status 200 and an ok body
    if env.mainFits && env.wsConnected then
      [.rpcRes (doc.id.getD (.num 0)) 200]
    else []
  else if doc.type.getD "" = "" then []
  else if doc.type.getD "" = "register_ack" then []
  else if doc.type.getD "" = "HTTP_REQ" then
    if doc.streamId.getD "" = "" then []
    else if env.mainFits then
      if env.wsConnected then
        [.httpRes (doc.streamId.getD "")
          (httpReqRoute cfg (doc.path.getD "/")).1
          (httpReqRoute cfg (doc.path.getD "/")).2]
      else []
    else
      -- fallback 500 response, still carrying the stream id
      if env.errFits && env.wsConnected then
        [.httpRes (doc.streamId.getD "") 500
          "Internal error: response buffer overflow"]
      else []
  else if doc.type.getD "" = "proxy_request" then
    tunnelHandleProxyRequest cfg doc handlerOps env
  else []

theorem runWriterOps_of_ended : ∀ (ops : List WriterOp) (w : RespWriter),
    w.ended = true →
    (runWriterOps w ops).1.ended = true ∧ (runWriterOps w ops).2 = [] := by
  intro ops
  induction ops with
  | nil =>
    intro w hw
    exact ⟨hw, rfl⟩
  | cons op ops ih =>
    intro w hw
    cases op with
    | setStatus c =>
      exact ih (writerSetStatus w c) (by simp [writerSetStatus, hw])
    | setHeader k v =>
      refine ih (writerSetHeader w k v) ?_
      simp only [writerSetHeader]
      split <;> simp [hw]
    | write d =>
      refine ih (writerWrite w d) ?_
      simp [writerWrite, hw]
    | endResponse =>
      have hend : writerEnd w = (w, none) := by simp [writerEnd, hw]
      have h := ih w hw
      simp only [runWriterOps, hend, Option.toList_none, List.nil_append]
      exact h

/-- The single frame tunnelHandleProxyRequest hands to the sender (before the
WebSocket/serialization gating): the 413 route when the decoded-size estimate
exceeds the cap, otherwise the built-in 200 route. -/
def proxyBuiltinFrame (cfg : Config) (doc : TunnelDoc) : ProxyFrame :=
  if (doc.bodyB64.getD "" ≠ "") ∧
      ((doc.bodyB64.getD "").length / 4) * 3 + 4 >
        cfgOrDefault cfg.maxTunnelBodyBytes 4096 then
    { requestId := (doc.requestId.getD "").take 47, statusCode := 413,
      headers := [("Content-Type".take 23, "text/plain".take 79)],
      bodyB64 := base64Encode ((strBytes "Payload Too Large").take 2048) }
  else
    { requestId := (doc.requestId.getD "").take 47, statusCode := 200,
      headers := [("Content-Type".take 23, "application/json".take 79)],
      bodyB64 := base64Encode
        ((strBytes (proxyBuiltinBody (doc.path.getD "/") (doc.requestId.getD ""))).take 2048) }

/-- The writer state after the built-in setStatus/setHeader/write sequence. -/
theorem writerChain_eq (rid : String) (st : Int) (k v : String) (d : List Nat) :
    writerWrite (writerSetHeader (writerSetStatus (initProxyWriter rid) st) k v) d =
      { requestId := rid.take 47, statusCode := st,
        headers := [(k.take 23, v.take 79)], body := d.take 2048, ended := false } := by
  simp [initProxyWriter, writerSetStatus, writerSetHeader, writerWrite]

theorem proxyFinish_of_ended (w : RespWriter) (f : Option ProxyFrame)
    (handlerOps : List WriterOp) (env : TunnelEnv) (hw : w.ended = true) :
    proxyFinish (w, f) handlerOps env = (f.toList.map (sendProxyFrame env)).flatten := by
  have hq := runWriterOps_of_ended handlerOps w hw
  simp [proxyFinish, hq.1, hq.2]

/-- end() on a not-yet-ended writer given by explicit fields. -/
theorem writerEnd_mk (rid : String) (st : Int) (hs : List (String × String))
    (bd : List Nat) :
    writerEnd { requestId := rid, statusCode := st, headers := hs, body := bd,
                ended := false } =
      ({ requestId := rid, statusCode := st, headers := hs, body := bd,
         ended := true },
       some { requestId := rid, statusCode := st, headers := hs,
              bodyB64 := base64Encode bd }) := by
  simp [writerEnd]

set_option maxHeartbeats 1000000 in
/-- tunnelHandleProxyRequest always routes exactly the built-in frame to the
sender: the user handler operates on the already-ended writer and therefore
contributes no frame. -/
theorem tunnelHandleProxyRequest_eq (cfg : Config) (doc : TunnelDoc)
    (handlerOps : List WriterOp) (env : TunnelEnv) :
    tunnelHandleProxyRequest cfg doc handlerOps env =
      sendProxyFrame env (proxyBuiltinFrame cfg doc) := by
  unfold tunnelHandleProxyRequest proxyBuiltinFrame
  by_cases hbig : (doc.bodyB64.getD "" ≠ "") ∧
      ((doc.bodyB64.getD "").length / 4) * 3 + 4 >
        cfgOrDefault cfg.maxTunnelBodyBytes 4096
  · rw [if_pos hbig, if_pos hbig, writerChain_eq, writerEnd_mk]
    simp
  · rw [if_neg hbig, if_neg hbig, writerChain_eq, writerEnd_mk,
      proxyFinish_of_ended _ _ _ _ rfl]
    simp

/-- The request id carried by the built-in proxy frame. -/
theorem proxyBuiltinFrame_requestId (cfg : Config) (doc : TunnelDoc) :
    (proxyBuiltinFrame cfg doc).requestId = (doc.requestId.getD "").take 47 := by
  unfold proxyBuiltinFrame
  by_cases h : (doc.bodyB64.getD "" ≠ "") ∧
      ((doc.bodyB64.getD "").length / 4) * 3 + 4 >
        cfgOrDefault cfg.maxTunnelBodyBytes 4096
  · rw [if_pos h]
  · rw [if_neg h]

/-- C3 (amended): every response frame sent over the tunnel carries the
inbound correlation id: exactly for the RPC envelope (id) and for HTTP_REQ
(stream_id); for proxy_request, the request_id is echoed truncated to the
47 content bytes of the writer's 48-byte requestId buffer.  An HTTP_REQ
without a non-empty stream_id provokes no response frame. -/
theorem tunnel_corr_id_echo (cfg : Config) (doc : TunnelDoc)
    (handlerOps : List WriterOp) (env : TunnelEnv) :
    (∀ f ∈ tunnelHandleMessage cfg doc handlerOps env,
      match f with
      | .rpcRes i _ => doc.id = some i
      | .httpRes sid _ _ => doc.streamId = some sid ∧ sid ≠ ""
      | .proxyRes pf => pf.requestId = (doc.requestId.getD "").take 47) ∧
    (doc.type = some "HTTP_REQ" → doc.id = none → doc.streamId.getD "" = "" →
      tunnelHandleMessage cfg doc handlerOps env = []) := by
  constructor
  · intro f hf
    unfold tunnelHandleMessage at hf
    by_cases hrpc : (doc.id.isSome && doc.path.isSome) = true
    · rw [if_pos hrpc] at hf
      by_cases hfit : (env.mainFits && env.wsConnected) = true
      · rw [if_pos hfit] at hf
        simp only [List.mem_singleton] at hf
        subst hf
        cases hid : doc.id with
        | none => rw [hid] at hrpc; simp at hrpc
        | some i => simp [hid]
      · rw [if_neg hfit] at hf
        simp at hf
    · rw [if_neg hrpc] at hf
      by_cases h0 : doc.type.getD "" = ""
      · rw [if_pos h0] at hf; simp at hf
      · rw [if_neg h0] at hf
        by_cases h1 : doc.type.getD "" = "register_ack"
        · rw [if_pos h1] at hf; simp at hf
        · rw [if_neg h1] at hf
          by_cases h2 : doc.type.getD "" = "HTTP_REQ"
          · rw [if_pos h2] at hf
            by_cases hsid : doc.streamId.getD "" = ""
            · rw [if_pos hsid] at hf; simp at hf
            · rw [if_neg hsid] at hf
              have hstream : doc.streamId = some (doc.streamId.getD "") := by
                cases hs : doc.streamId with
                | none => rw [hs] at hsid; simp at hsid
                | some s => simp [hs]
              by_cases hm : env.mainFits = true
              · rw [if_pos hm] at hf
                by_cases hw : env.wsConnected = true
                · rw [if_pos hw] at hf
                  simp only [List.mem_singleton] at hf
                  subst hf
                  exact ⟨hstream, hsid⟩
                · rw [if_neg hw] at hf; simp at hf
              · rw [if_neg hm] at hf
                by_cases he : (env.errFits && env.wsConnected) = true
                · rw [if_pos he] at hf
                  simp only [List.mem_singleton] at hf
                  subst hf
                  exact ⟨hstream, hsid⟩
                · rw [if_neg he] at hf; simp at hf
          · rw [if_neg h2] at hf
            by_cases h3 : doc.type.getD "" = "proxy_request"
            · rw [if_pos h3, tunnelHandleProxyRequest_eq] at hf
              unfold sendProxyFrame at hf
              by_cases hg : (env.wsConnected && env.proxyFits) = true
              · rw [if_pos hg] at hf
                simp only [List.mem_singleton] at hf
                subst hf
                exact proxyBuiltinFrame_requestId cfg doc
              · rw [if_neg hg] at hf; simp at hf
            · rw [if_neg h3] at hf; simp at hf
  · intro ht hid hsid
    unfold tunnelHandleMessage
    rw [if_neg (by simp [hid]), if_neg (by simp [ht]), if_neg (by simp [ht]),
      if_pos (by simp [ht]), if_pos hsid]

/-- A concrete HTTP_REQ document used as witness input. -/
def httpReqDocW : TunnelDoc :=
  { type := some "HTTP_REQ", streamId := some "s7", path := some "/ping" }

/-- A concrete proxy_request document whose request_id is 48 bytes long. -/
def proxyDoc48 : TunnelDoc :=
  { type := some "proxy_request",
    requestId := some (String.mk (List.replicate 48 'a')) }

/-- Projection of the request id carried by a proxy_response frame. -/
def proxyFrameReqId : OutFrame → Option String
  | .proxyRes pf => some pf.requestId
  | _ => none

/-- Witness for tunnel_corr_id_echo: an HTTP_REQ with stream id "s7" gets a
response frame carrying exactly that stream id. -/
theorem tunnel_corr_id_echo_witness :
    httpReqDocW.streamId = some "s7" ∧ "s7" ≠ "" :=
  (tunnel_corr_id_echo {} httpReqDocW [] {}).1 (.httpRes "s7" 200 "OK")
    (by decide)

/-- C3 counterexample: a proxy_request whose request_id is 48 bytes long is
answered by a proxy_response whose request_id is only the 47-byte truncation,
so the response frame does not contain the inbound correlation id
byte-for-byte. -/
theorem tunnel_corr_id_echo_cex :
    ((tunnelHandleMessage {} proxyDoc48 [] {}).map proxyFrameReqId =
      [some (String.mk (List.replicate 47 'a'))]) ∧
    some (String.mk (List.replicate 47 'a')) ≠ proxyDoc48.requestId := by
  exact ⟨by decide, by decide⟩

theorem strBytes_length (s : String) : (strBytes s).length = s.length := by
  unfold strBytes
  rw [List.length_map]
  rfl

/-- The built-in proxy body always fits the 128-byte snprintf buffer (any
larger minimal body is skipped and the body stays empty). -/
theorem proxyBuiltinBody_length (path reqId : String) :
    (proxyBuiltinBody path reqId).length < 128 := by
  unfold proxyBuiltinBody
  by_cases hl : containsLedOn path
  · rw [if_pos hl]
    decide
  · rw [if_neg hl]
    by_cases hm :
        ("\x7b\"ok\":true,\"request_id\":\"" ++ reqId ++ "\"\x7d").length < 128
    · rw [if_pos hm]
      exact hm
    · rw [if_neg hm]
      decide

/-- C7 (amended): whenever the tunnel is connected and the response frame
fits its buffer, a proxy_request whose base64 body estimate
(strlen(b64)/4)*3+4 is within max_tunnel_body_bytes is answered by exactly
one proxy_response; its request_id is the inbound id truncated to 47 bytes,
and its status_code (200) and body (base64 of the built-in JSON body) come
from the built-in route, for every possible user handler: the writer is
ended before the handler runs, so the handler's status and output are not
what is sent. -/
theorem proxy_response_builtin (cfg : Config) (doc : TunnelDoc)
    (handlerOps : List WriterOp) (env : TunnelEnv)
    (hws : env.wsConnected = true) (hfits : env.proxyFits = true)
    (hsize : doc.bodyB64.getD "" = "" ∨
      ((doc.bodyB64.getD "").length / 4) * 3 + 4 ≤
        cfgOrDefault cfg.maxTunnelBodyBytes 4096) :
    tunnelHandleProxyRequest cfg doc handlerOps env =
      [.proxyRes
        { requestId := (doc.requestId.getD "").take 47, statusCode := 200,
          headers := [("Content-Type", "application/json")],
          bodyB64 := base64Encode
            (strBytes (proxyBuiltinBody (doc.path.getD "/")
              (doc.requestId.getD ""))) }] := by
  rw [tunnelHandleProxyRequest_eq]
  have hc : ¬ ((doc.bodyB64.getD "" ≠ "") ∧
      ((doc.bodyB64.getD "").length / 4) * 3 + 4 >
        cfgOrDefault cfg.maxTunnelBodyBytes 4096) := by
    rcases hsize with h | h
    · simp [h]
    · intro hcon
      omega
  unfold proxyBuiltinFrame sendProxyFrame
  rw [if_neg hc, if_pos (by simp [hws, hfits])]
  have htake :
      (strBytes (proxyBuiltinBody (doc.path.getD "/") (doc.requestId.getD ""))).take 2048 =
        strBytes (proxyBuiltinBody (doc.path.getD "/") (doc.requestId.getD "")) := by
    apply List.take_of_length_le
    rw [strBytes_length]
    have := proxyBuiltinBody_length (doc.path.getD "/") (doc.requestId.getD "")
    omega
  rw [htake, show "Content-Type".take 23 = "Content-Type" from by decide,
    show "application/json".take 79 = "application/json" from by decide]

/-- Witness input for the proxy round trip: a small proxy_request. -/
def c7DocW : TunnelDoc :=
  { type := some "proxy_request", requestId := some "r1", path := some "/x" }

/-- A user handler that tries to answer 500 with body "X". -/
def c7Handler : List WriterOp :=
  [.setStatus 500, .write (strBytes "X"), .endResponse]

/-- Witness for proxy_response_builtin at the concrete document c7DocW. -/
theorem proxy_response_builtin_witness :
    tunnelHandleProxyRequest {} c7DocW c7Handler {} =
      [.proxyRes
        { requestId := (c7DocW.requestId.getD "").take 47, statusCode := 200,
          headers := [("Content-Type", "application/json")],
          bodyB64 := base64Encode
            (strBytes (proxyBuiltinBody (c7DocW.path.getD "/")
              (c7DocW.requestId.getD ""))) }] :=
  proxy_response_builtin {} c7DocW c7Handler {} (by decide) (by decide)
    (by decide)

/-- Projection of the status code and body carried by a proxy_response. -/
def proxyFrameStatusBody : OutFrame → Option (Int × List Char)
  | .proxyRes pf => some (pf.statusCode, pf.bodyB64)
  | _ => none

/-- C7 counterexample: the user handler chooses status 500 and body "X", but
the proxy_response actually sent carries the built-in status 200 and the
base64 of the built-in JSON body — not the handler's choice: the claim that
the handler determines status_code and body is false. -/
theorem proxy_response_builtin_cex :
    ((tunnelHandleMessage {} c7DocW c7Handler {}).map proxyFrameStatusBody =
      [some ((200 : Int),
        base64Encode (strBytes "\x7b\"ok\":true,\"request_id\":\"r1\"\x7d"))]) ∧
    (200 : Int) ≠ 500 ∧
    base64Encode (strBytes "\x7b\"ok\":true,\"request_id\":\"r1\"\x7d") ≠
      base64Encode (strBytes "X") := by
  exact ⟨by decide, by decide, by decide⟩

/-! ## Identity derivation

Richest variant: getMacCStr renders the 6 MAC bytes with
snprintf("%02X:%02X:%02X:%02X:%02X:%02X") — uppercase hex, colon separated —
and getMachineId prepends the configured prefix (default "node-").

Simpler variant: makeUniqueSuffix takes WiFi.macAddress() (the same
colon-separated uppercase rendering), strips the colons and lowercases it,
falling back to the platform chip id hex when the MAC string is empty;
ensureIdentityInitialized prepends the resolved prefix when
appendUniqueSuffix is set.  Arduino String.replace(":","")/toLowerCase are
modelled at the character-list level; the platform chip id hex rendering is
an external collaborator and is an input. -/

/-- Hex digit as produced by %X: 0-9 then A-F. -/
def hexDigitUpper (n : Nat) : Char :=
  if n < 10 then Char.ofNat (48 + n) else Char.ofNat (55 + n)

/-- Lowercase hex digit: 0-9 then a-f. -/
def hexDigitLower (n : Nat) : Char :=
  if n < 10 then Char.ofNat (48 + n) else Char.ofNat (87 + n)

/-- The character stream of "%02X:%02X:…": two uppercase hex digits per byte,
bytes separated by colons. -/
def macChars : List Nat → List Char
  | [] => []
  | [b] => [hexDigitUpper (b / 16), hexDigitUpper (b % 16)]
  | b :: rest =>
      hexDigitUpper (b / 16) :: hexDigitUpper (b % 16) :: ':' :: macChars rest

/-- getMacCStr from the richest variant. -/
def getMacCStr (mac : List Nat) : String := String.mk (macChars mac)

/-- getMachineId from the richest variant: configured prefix (default
"node-") followed by the colon-separated uppercase MAC rendering. -/
def getMachineId (cfg : Config) (mac : List Nat) : String :=
  (if cstrNonempty cfg.machineIdPfx then cfg.machineIdPfx.getD "" else "node-") ++
    getMacCStr mac

/-- Identity-related config of the simpler variant. -/
structure IdCfg where
  machineIdPrefix : Option String := none
  machineId : Option String := none
  appendUniqueSuffix : Bool := true
  useMacForUniqueId : Bool := true

/-- Arduino String.toLowerCase on one character. -/
def lowerChar (c : Char) : Char :=
  if 'A' ≤ c ∧ c ≤ 'Z' then Char.ofNat (c.toNat + 32) else c

/-- makeUniqueSuffix from the simpler variant: for useMacForUniqueId and a
non-empty MAC string, the MAC with colons removed and lowercased; otherwise
the platform chip id hex string. -/
def makeUniqueSuffix (cfg : IdCfg) (macStr : List Char) (chipHex : List Char) :
    List Char :=
  if cfg.useMacForUniqueId && !macStr.isEmpty then
    (macStr.filter (fun c => c ≠ ':')).map lowerChar
  else chipHex

/-- The prefix resolution of ensureIdentityInitialized. -/
def idCfgPfx (cfg : IdCfg) : String :=
  if cstrNonempty cfg.machineIdPrefix then cfg.machineIdPrefix.getD ""
  else if cstrNonempty cfg.machineId then cfg.machineId.getD "" else ""

/-- ensureIdentityInitialized: machine id of the simpler variant. -/
def identityMachineId (cfg : IdCfg) (macStr : List Char) (chipHex : List Char) :
    List Char :=
  if cfg.appendUniqueSuffix then
    (idCfgPfx cfg).toList ++ makeUniqueSuffix cfg macStr chipHex
  else (idCfgPfx cfg).toList

/-- The lowercase colon-free rendering of the MAC bytes. -/
def macHexLower (mac : List Nat) : List Char :=
  mac.flatMap (fun b => [hexDigitLower (b / 16), hexDigitLower (b % 16)])

theorem hexDigitUpper_ne_colon : ∀ n < 16, hexDigitUpper n ≠ ':' := by decide

theorem lowerChar_hexDigitUpper : ∀ n < 16, lowerChar (hexDigitUpper n) = hexDigitLower n := by
  decide

/-- Stripping the colons from the uppercase MAC rendering and lowercasing
yields exactly the lowercase colon-free rendering. -/
theorem macChars_strip_lower (mac : List Nat) (h : ∀ b ∈ mac, b < 256) :
    ((macChars mac).filter (fun c => c ≠ ':')).map lowerChar = macHexLower mac := by
  induction mac using macChars.induct with
  | case1 => rfl
  | case2 b =>
    have hb : b < 256 := h b (by simp)
    have h1 : b / 16 < 16 := by omega
    have h2 : b % 16 < 16 := by omega
    simp [macChars, macHexLower, hexDigitUpper_ne_colon _ h1,
      hexDigitUpper_ne_colon _ h2, lowerChar_hexDigitUpper _ h1,
      lowerChar_hexDigitUpper _ h2]
  | case3 b x rest ih =>
    have hb : b < 256 := h b (by simp)
    have h1 : b / 16 < 16 := by omega
    have h2 : b % 16 < 16 := by omega
    have ih' := ih (fun y hy => h y (by simp [hy]))
    simp only [macChars, macHexLower, List.flatMap_cons, List.filter_cons]
    simp [hexDigitUpper_ne_colon _ h1, hexDigitUpper_ne_colon _ h2,
      lowerChar_hexDigitUpper _ h1, lowerChar_hexDigitUpper _ h2]
    simpa [macHexLower] using ih'

theorem macChars_ne_nil : ∀ mac : List Nat, mac ≠ [] → macChars mac ≠ [] := by
  intro mac h
  match mac with
  | [b] => simp [macChars]
  | b :: c :: rest => simp [macChars]

/-- C8 (amended): in the variant deriving identity through makeUniqueSuffix
(useMacForUniqueId and appendUniqueSuffix set), the machine id is the
resolved prefix followed by the MAC rendered as lowercase hex with the
colons stripped, with the platform chip id hex as fallback when the MAC
string is empty; when the MAC is available the id does not depend on the
chip id (deterministic across reboots, as MAC and config are fixed).  The
richest variant's getMachineId instead appends the MAC as colon-separated
uppercase hex to the prefix (default "node-"). -/
theorem machine_id_derivation (cfg : IdCfg) (ccfg : Config) (mac : List Nat)
    (chipHex chipHex2 : List Char)
    (hb : ∀ b ∈ mac, b < 256)
    (humac : cfg.useMacForUniqueId = true) (happ : cfg.appendUniqueSuffix = true) :
    (mac ≠ [] →
      identityMachineId cfg (macChars mac) chipHex =
        (idCfgPfx cfg).toList ++ macHexLower mac) ∧
    (identityMachineId cfg (macChars []) chipHex =
      (idCfgPfx cfg).toList ++ chipHex) ∧
    (mac ≠ [] →
      identityMachineId cfg (macChars mac) chipHex2 =
        identityMachineId cfg (macChars mac) chipHex) ∧
    (getMachineId ccfg mac =
      (if cstrNonempty ccfg.machineIdPfx then ccfg.machineIdPfx.getD ""
       else "node-") ++ String.mk (macChars mac)) := by
  have key : ∀ ch : List Char, mac ≠ [] →
      identityMachineId cfg (macChars mac) ch =
        (idCfgPfx cfg).toList ++ macHexLower mac := by
    intro ch hmac
    unfold identityMachineId makeUniqueSuffix
    rw [if_pos happ, if_pos (by
      simp [humac, List.isEmpty_iff, macChars_ne_nil mac hmac])]
    rw [macChars_strip_lower mac hb]
  refine ⟨key chipHex, ?_, ?_, rfl⟩
  · unfold identityMachineId makeUniqueSuffix
    rw [if_pos happ, if_neg (by simp [macChars])]
  · intro hmac
    rw [key chipHex2 hmac, key chipHex hmac]

/-- Witness for machine_id_derivation at a concrete MAC and prefix. -/
theorem machine_id_derivation_witness :
    identityMachineId { machineIdPrefix := some "node-" }
        (macChars [170, 187, 204, 221, 238, 255]) "beef".toList =
      (idCfgPfx { machineIdPrefix := some "node-" }).toList ++
        macHexLower [170, 187, 204, 221, 238, 255] :=
  (machine_id_derivation { machineIdPrefix := some "node-" } {}
      [170, 187, 204, 221, 238, 255] "beef".toList "beef".toList
      (by decide) rfl rfl).1 (by decide)

/-- C8 counterexample: with prefix "node-" and MAC AA:BB:CC:DD:EE:FF, the
richest variant's getMachineId yields "node-AA:BB:CC:DD:EE:FF" — uppercase
hex with colons — and not the claimed prefix + lowercase colon-stripped
rendering (which the simpler variant produces). -/
theorem machine_id_derivation_cex :
    getMachineId { machineIdPfx := some "node-" }
        [170, 187, 204, 221, 238, 255] = "node-AA:BB:CC:DD:EE:FF" ∧
    String.mk (identityMachineId { machineIdPrefix := some "node-" }
        (macChars [170, 187, 204, 221, 238, 255]) []) = "node-aabbccddeeff" ∧
    "node-AA:BB:CC:DD:EE:FF" ≠ "node-aabbccddeeff" := by
  exact ⟨by decide, by decide, by decide⟩

/-! ## Control-plane state machine (richest variant)

The embedded functions mirror OrbiSyncNode::runStateMachine and the try*
methods.  uint32_t arithmetic is u32 (reduction mod 2^32).  millis() is a
tick input; the synchronous HTTP request duration is not modelled, so every
millis() call within one handler reads the same clock value.  Parsed JSON
response documents are structures of the keys each handler reads; a
response that postJsonUnified delivered but that fails deserializeJson is
(some status, none).  The serialization-buffer and MAC-availability guards
are environment inputs. -/

def u32 (n : Nat) : Nat := n % 4294967296

/-- advanceNetBackoff: double (uint32) and clamp at kBackoffMaxMs = 60000. -/
def advanceNetBackoff (n : Nat) : Nat :=
  if u32 (n * 2) > 60000 then 60000 else u32 (n * 2)

/-- advancePairBackoff: double while below kBackoffMaxMs/2, else 60000. -/
def advancePairBackoff (n : Nat) : Nat :=
  if n < 30000 then u32 (n * 2) else 60000

/-- enum class State of the richest variant. -/
inductive NodeState where
  | boot | hello | pairSubmit | pendingPoll | granted | active
  | tunnelConnecting | tunnelConnected | error
deriving DecidableEq

/-- The mutable fields of the node read or written by the control plane. -/
structure NodeSt where
  state : NodeState := .boot
  nodeId : String := ""
  nodeToken : String := ""
  tunnelUrl : String := ""
  tunnelId : String := ""
  sessionToken : String := ""
  sessionExpiresAt : String := ""
  pairingCode : String := ""
  pairingExpiresAt : String := ""
  pairingCodeValid : Bool := false
  nextHelloMs : Nat := 0
  nextPairMs : Nat := 0
  nextApproveMs : Nat := 0
  nextSessionPollMs : Nat := 0
  nextRegisterBySlotMs : Nat := 0
  netBackoffMs : Nat := 2000
  pairBackoffMs : Nat := 2000
  nextTunnelConnectMs : Nat := 0
  tunnelBackoffMs : Nat := 2000
  tunnelBackoffIndex : Nat := 0
  tunnelRegistered : Bool := false
  approveMissingMacFailed : Bool := false
  lastHeartbeatMs : Nat := 0
  httpBusy : Bool := false
deriving DecidableEq

/-- setState: no-op on the current state; on entering ACTIVE with the tunnel
enabled and a tunnel URL present, the next tunnel connect is made due. -/
def setState (cfg : Config) (n : NodeSt) (s : NodeState) : NodeSt :=
  if n.state = s then n
  else
    let n' : NodeSt := { n with state := s }
    if s = .active && cfg.enableTunnel && !(n'.tunnelUrl = "") then
      { n' with nextTunnelConnectMs := 0 }
    else n'

def clearPairingCode (n : NodeSt) : NodeSt :=
  { n with pairingCode := "", pairingExpiresAt := "", pairingCodeValid := false }

/-- storePairingFromHello: code and expiry copied with truncation to the
31-content-byte buffers; valid iff the stored code is non-empty. -/
def storePairingFromHello (n : NodeSt) (code expiresAt : String) : NodeSt :=
  if code = "" then { n with pairingCodeValid := false }
  else
    { n with pairingCode := code.take 31, pairingExpiresAt := expiresAt.take 31,
             pairingCodeValid := !(code.take 31 = "") }

/-- isPairingExpired: without NTP the expiry string is never compared; the
code is "expired" exactly when it is not valid. -/
def isPairingExpired (n : NodeSt) : Bool := !n.pairingCodeValid

/-- parseBaseUrl host extraction: strip the scheme, take until : or /. -/
def stripScheme (s : List Char) : List Char :=
  if "https://".toList.isPrefixOf s then s.drop 8
  else if "http://".toList.isPrefixOf s then s.drop 7
  else s

def parseBaseUrlHost (base : String) : Option String :=
  if base = "" then none
  else
    let host := (stripScheme base.toList).takeWhile (fun c => c ≠ ':' && c ≠ '/')
    if host.length = 0 || 128 ≤ host.length then none else some (String.mk host)

/-- buildWsTunnelUrl: wss://<host>/ws/tunnel from the hub base URL. -/
def buildWsTunnelUrl (hubBaseUrl : Option String) : Option String :=
  match hubBaseUrl with
  | none => none
  | some b =>
      if b = "" then none
      else
        match parseBaseUrlHost b with
        | none => none
        | some h => some ("wss://" ++ h ++ "/ws/tunnel")

/-- A control-endpoint exchange as the handler sees it: postJsonUnified
returned false (fail), or a status was delivered with an optionally
parseable body. -/
inductive HttpInput (α : Type) where
  | fail
  | resp (status : Int) (doc : Option α)

/-- Parsed hello response body (pairing key variants collapsed to the first
string-valued one of pairing_code / pairing / code). -/
structure HelloDoc where
  status : Option String := none
  retryAfterMs : Option Nat := none
  pairingCode : Option String := none
  pairingExpiresAt : Option String := none

/-- Parsed session poll / refresh response body. -/
structure SessionDoc where
  status : Option String := none
  retryAfterMs : Option Nat := none
  sessionToken : Option String := none
  expiresAt : Option String := none
  tunnelUrl : Option String := none

/-- Parsed approve response body. -/
structure ApproveDoc where
  status : Option String := none
  sessionToken : Option String := none
  expiresAt : Option String := none
  registerToken : Option String := none
  tunnelUrl : Option String := none
  nodeId : Option String := none

/-- Parsed pair response body. -/
structure PairDoc where
  ok : Bool := false
  nodeId : Option String := none
  sessionToken : Option String := none
  nodeToken : Option String := none
  tunnelUrl : Option String := none

/-- Parsed register_by_slot response body. -/
structure RegisterDoc where
  nodeId : Option String := none
  nodeAuthToken : Option String := none
  tunnelUrl : Option String := none

/-- The approve exchange additionally reports whether a 400 body contains
"missing_mac" (checked with strstr before parsing). -/
inductive ApproveInput where
  | fail
  | resp (status : Int) (missingMacInBody : Bool) (doc : Option ApproveDoc)

/-- handleHelloResponse from the source: 410 clears pairing and backs off in
Hello, 403/401 back off in Hello, other non-2xx / missing or unparseable
body advance the backoff first and reschedule, DENIED enters Error, and a
2xx body stores or clears pairing, resets the net backoff, schedules the
next hello/session-poll/approve/pair, and selects the next state. -/
def handleHelloResponse (cfg : Config) (n : NodeSt) (now : Nat)
    (inp : HttpInput HelloDoc) : NodeSt :=
  match inp with
  | .fail =>
      let n' := { n with netBackoffMs := advanceNetBackoff n.netBackoffMs }
      { n' with nextHelloMs := u32 (now + n'.netBackoffMs) }
  | .resp status doc =>
      if status = 410 then
        let n' := clearPairingCode n
        let n' := { n' with nextHelloMs := u32 (now + n'.netBackoffMs) }
        let n' := { n' with netBackoffMs := advanceNetBackoff n'.netBackoffMs }
        setState cfg n' .hello
      else if status = 403 then
        let n' := { n with nextHelloMs := u32 (now + n.netBackoffMs) }
        let n' := { n' with netBackoffMs := advanceNetBackoff n'.netBackoffMs }
        setState cfg n' .hello
      else if status = 401 then
        let n' := { n with nextHelloMs := u32 (now + n.netBackoffMs) }
        let n' := { n' with netBackoffMs := advanceNetBackoff n'.netBackoffMs }
        setState cfg n' .hello
      else if status < 200 ∨ 300 ≤ status then
        let n' := { n with netBackoffMs := advanceNetBackoff n.netBackoffMs }
        { n' with nextHelloMs := u32 (now + n'.netBackoffMs) }
      else
        match doc with
        | none =>
            let n' := { n with netBackoffMs := advanceNetBackoff n.netBackoffMs }
            { n' with nextHelloMs := u32 (now + n'.netBackoffMs) }
        | some d =>
            let retryMs := d.retryAfterMs.getD 3000
            if d.status.getD "" = "DENIED" then
              let n' := setState cfg n .error
              { n' with nextHelloMs := u32 (now + retryMs) }
            else
              let pc := d.pairingCode.getD ""
              let exp := d.pairingExpiresAt.getD ""
              let n' := if pc ≠ "" then storePairingFromHello n pc exp
                        else clearPairingCode n
              let n' := { n' with
                netBackoffMs := 2000,
                nextHelloMs := u32 (now + retryMs),
                nextSessionPollMs := u32 (now + retryMs),
                nextApproveMs := u32 (now + 500),
                nextPairMs := u32 (now + 500) }
              if n'.pairingCodeValid then
                if cfg.enableSelfApprove && cstrNonempty cfg.approveEndpointPath then
                  setState cfg n' .pendingPoll
                else setState cfg n' .pairSubmit
              else setState cfg n' .hello

/-- The GRANTED token/expiry/tunnel bookkeeping shared by session poll,
session refresh and approve: store the token (truncated to the 255-byte
buffer); store the expiry only when it fits the 32-byte buffer; prefer the
tunnel URL derived from the hub base over a server-provided one. -/
def storeGrantedExpiryKeep (n : NodeSt) (exp : String) : NodeSt :=
  if exp ≠ "" then
    (if exp.length < 32 then { n with sessionExpiresAt := exp.take 31 } else n)
  else { n with sessionExpiresAt := "" }

def storeGrantedExpiryClear (n : NodeSt) (exp : String) : NodeSt :=
  if exp ≠ "" ∧ exp.length < 32 then { n with sessionExpiresAt := exp.take 31 }
  else { n with sessionExpiresAt := "" }

/-- trySessionPoll response handling (source lines: 404 retries in 5 s;
401/403/410 clear session and pairing and fall back to Hello with net
backoff; parse failure retries in 3 s; GRANTED stores tokens and goes
Active; DENIED goes Error; the poll is rescheduled by retry_after_ms). -/
def trySessionPollHandle (cfg : Config) (n : NodeSt) (now : Nat)
    (inp : HttpInput SessionDoc) : NodeSt :=
  match inp with
  | .fail =>
      let n' := { n with netBackoffMs := advanceNetBackoff n.netBackoffMs }
      { n' with nextSessionPollMs := u32 (now + n'.netBackoffMs) }
  | .resp status doc =>
      if status = 404 then { n with nextSessionPollMs := u32 (now + 5000) }
      else if status = 401 ∨ status = 403 ∨ status = 410 then
        let n' := { n with sessionToken := "", sessionExpiresAt := "" }
        let n' := clearPairingCode n'
        let n' := { n' with netBackoffMs := advanceNetBackoff n'.netBackoffMs }
        let n' := setState cfg n' .hello
        { n' with nextHelloMs := u32 (now + n'.netBackoffMs) }
      else
        match doc with
        | none => { n with nextSessionPollMs := u32 (now + 3000) }
        | some d =>
            let retryMs := d.retryAfterMs.getD 3000
            let n' :=
              if d.status.getD "" = "GRANTED" then
                let tok := d.sessionToken.getD ""
                let n' := if tok ≠ "" then { n with sessionToken := tok.take 255 }
                          else n
                let n' := storeGrantedExpiryClear n' (d.expiresAt.getD "")
                let n' :=
                  if tok ≠ "" ∧ (buildWsTunnelUrl cfg.hubBaseUrl).isSome then
                    { n' with tunnelUrl := (buildWsTunnelUrl cfg.hubBaseUrl).getD "",
                              nextTunnelConnectMs := 0 }
                  else if d.tunnelUrl.getD "" ≠ "" then
                    { n' with tunnelUrl := (d.tunnelUrl.getD "").take 255,
                              nextTunnelConnectMs := 0 }
                  else n'
                let n' := { n' with netBackoffMs := 2000 }
                let n' := setState cfg n' .active
                { n' with lastHeartbeatMs := now }
              else if d.status.getD "" = "DENIED" then setState cfg n .error
              else n
            { n' with nextSessionPollMs := u32 (now + retryMs) }

/-- tryApprove response handling (400 with missing_mac latches the permanent
failure flag; 401/403/410 clear session and pairing and fall back to Hello
with net backoff; other non-2xx or parse failure reschedule; success stores
tokens, resets the net backoff and goes Active). -/
def tryApproveHandle (cfg : Config) (n : NodeSt) (now : Nat)
    (inp : ApproveInput) : NodeSt :=
  match inp with
  | .fail =>
      let n' := { n with netBackoffMs := advanceNetBackoff n.netBackoffMs }
      { n' with nextApproveMs := u32 (now + cfgOrDefault cfg.approveRetryMs 3000) }
  | .resp status missingMac doc =>
      if status = 400 ∧ missingMac = true then
        { n with approveMissingMacFailed := true }
      else if status = 401 ∨ status = 403 ∨ status = 410 then
        let n' := clearPairingCode n
        let n' := { n' with sessionToken := "", sessionExpiresAt := "" }
        let n' := { n' with netBackoffMs := advanceNetBackoff n'.netBackoffMs }
        let n' := setState cfg n' .hello
        { n' with nextHelloMs := u32 (now + n'.netBackoffMs) }
      else if status < 200 ∨ 300 ≤ status then
        { n with nextApproveMs := u32 (now + cfgOrDefault cfg.approveRetryMs 3000) }
      else
        match doc with
        | none => { n with nextApproveMs := u32 (now + 3000) }
        | some d =>
            let tok := d.sessionToken.getD ""
            let n' := if tok ≠ "" then { n with sessionToken := tok.take 255 } else n
            let n' := storeGrantedExpiryKeep n' (d.expiresAt.getD "")
            let n' := if d.registerToken.getD "" ≠ "" then
                        { n' with nodeToken := (d.registerToken.getD "").take 255 }
                      else n'
            let n' := if d.nodeId.getD "" ≠ "" then
                        { n' with nodeId := (d.nodeId.getD "").take 63 }
                      else n'
            let n' :=
              if tok ≠ "" ∧ (buildWsTunnelUrl cfg.hubBaseUrl).isSome then
                { n' with tunnelUrl := (buildWsTunnelUrl cfg.hubBaseUrl).getD "",
                          nextTunnelConnectMs := 0 }
              else if d.tunnelUrl.getD "" ≠ "" then
                { n' with tunnelUrl := (d.tunnelUrl.getD "").take 255,
                          nextTunnelConnectMs := 0 }
              else n'
            let n' := { n' with netBackoffMs := 2000, approveMissingMacFailed := false }
            let n' := setState cfg n' .active
            { n' with lastHeartbeatMs := now, nextSessionPollMs := u32 (now + 60000) }

/-- tryRegisterBySlot response handling (the retry is always rescheduled at
register_retry_ms; success requires node_id, node_auth_token and tunnel_url
and then goes Active with the tunnel backoff reset). -/
def tryRegisterBySlotHandle (cfg : Config) (n : NodeSt) (now : Nat)
    (inp : HttpInput RegisterDoc) : NodeSt :=
  let n := { n with nextRegisterBySlotMs := u32 (now + cfgOrDefault cfg.registerRetryMs 4000) }
  match inp with
  | .fail => n
  | .resp status doc =>
      if status < 200 ∨ 300 ≤ status then n
      else
        match doc with
        | none => n
        | some d =>
            if d.nodeId.getD "" = "" ∨ d.nodeAuthToken.getD "" = "" ∨
                d.tunnelUrl.getD "" = "" then n
            else
              let n' := { n with
                nodeId := (d.nodeId.getD "").take 63,
                nodeToken := (d.nodeAuthToken.getD "").take 255,
                tunnelUrl := (d.tunnelUrl.getD "").take 255,
                nextTunnelConnectMs := 0, tunnelBackoffIndex := 0,
                tunnelBackoffMs := 2000 }
              let n' := setState cfg n' .active
              { n' with lastHeartbeatMs := now }

/-- tryPairIfNeeded response handling (any failure clears the pairing code
and falls back to Hello; success stores ids and tokens, derives the tunnel
URL, resets the pair backoff and goes Active). -/
def tryPairHandle (cfg : Config) (n : NodeSt) (now : Nat)
    (inp : HttpInput PairDoc) : NodeSt :=
  let fallback (n : NodeSt) : NodeSt :=
    let n' := clearPairingCode n
    let n' := { n' with pairBackoffMs := advancePairBackoff n'.pairBackoffMs }
    let n' := setState cfg n' .hello
    { n' with nextHelloMs := u32 (now + n'.pairBackoffMs) }
  match inp with
  | .fail => fallback n
  | .resp status doc =>
      if status < 200 ∨ 300 ≤ status then fallback n
      else
        match doc with
        | none =>
            let n' := clearPairingCode n
            let n' := setState cfg n' .hello
            { n' with nextHelloMs := u32 (now + 3000) }
        | some d =>
            if ¬ d.ok then fallback n
            else
              let n' := if d.nodeId.getD "" ≠ "" then
                          { n with nodeId := (d.nodeId.getD "").take 63 }
                        else n
              let n' := if d.sessionToken.getD "" ≠ "" then
                          { n' with sessionToken := (d.sessionToken.getD "").take 255 }
                        else n'
              let n' := if d.nodeToken.getD "" ≠ "" then
                          { n' with nodeToken := (d.nodeToken.getD "").take 255 }
                        else n'
              let n' :=
                if (buildWsTunnelUrl cfg.hubBaseUrl).isSome then
                  { n' with tunnelUrl := (buildWsTunnelUrl cfg.hubBaseUrl).getD "",
                            nextTunnelConnectMs := 0 }
                else if d.tunnelUrl.getD "" ≠ "" then
                  { n' with tunnelUrl := (d.tunnelUrl.getD "").take 255,
                            nextTunnelConnectMs := 0 }
                else n'
              let n' := { n' with pairBackoffMs := 2000 }
              let n' := clearPairingCode n'
              let n' := setState cfg n' .active
              { n' with lastHeartbeatMs := now, nextSessionPollMs := u32 (now + 60000) }

/-- trySessionRefresh response handling; the Bool is the function's return
value (true only on GRANTED). -/
def trySessionRefreshHandle (cfg : Config) (n : NodeSt) (now : Nat)
    (inp : HttpInput SessionDoc) : NodeSt × Bool :=
  match inp with
  | .fail => (n, false)
  | .resp status doc =>
      if status = 401 ∨ status = 403 ∨ status = 410 then
        ({ n with sessionToken := "", sessionExpiresAt := "" }, false)
      else if status ≠ 200 ∧ status ≠ 201 then (n, false)
      else
        match doc with
        | none => (n, false)
        | some d =>
            if d.status.getD "" ≠ "GRANTED" then (n, false)
            else
              let tok := d.sessionToken.getD ""
              let n' := if tok ≠ "" then { n with sessionToken := tok.take 255 }
                        else n
              let n' := storeGrantedExpiryKeep n' (d.expiresAt.getD "")
              let n' :=
                if (buildWsTunnelUrl cfg.hubBaseUrl).isSome then
                  { n' with tunnelUrl := (buildWsTunnelUrl cfg.hubBaseUrl).getD "",
                            nextTunnelConnectMs := 0 }
                else if d.tunnelUrl.getD "" ≠ "" then
                  { n' with tunnelUrl := (d.tunnelUrl.getD "").take 255,
                            nextTunnelConnectMs := 0 }
                else n'
              let n' := { n' with netBackoffMs := 2000 }
              let n' := setState cfg n' .active
              ({ n' with
                lastHeartbeatMs := now,
                nextSessionPollMs := u32 (now + 60000) }, true)

/-- The control-plane HTTP requests a tick can issue. -/
inductive CtrlReq where
  | hello | pair | approve | sessionPoll | registerBySlot | sessionRefresh
deriving DecidableEq

/-- One tick's environment: the clock, link state, buffer/serialization
outcomes, the parsed outcome of whichever exchanges fire, and the effect of
the cooperating tunnel subsystem (tunnelLoop issues no control-plane HTTP;
its WebSocket-driven state changes are an external input). -/
structure TickEnv where
  now : Nat := 0
  wifiConnected : Bool := true
  serializeOk : Bool := true
  macAvailable : Bool := true
  approveBufOk : Bool := true
  helloInp : HttpInput HelloDoc := .fail
  pairInp : HttpInput PairDoc := .fail
  approveInp : ApproveInput := .fail
  sessionInp : HttpInput SessionDoc := .fail
  registerInp : HttpInput RegisterDoc := .fail
  refreshInp : HttpInput SessionDoc := .fail
  tunnelStep : NodeSt → NodeSt := id

/-- tryHello: gated by http_busy, the next-due time and serialization; when
it fires, the response is handled by handleHelloResponse. -/
def tryHello (cfg : Config) (n : NodeSt) (env : TickEnv) :
    NodeSt × Option CtrlReq :=
  if n.httpBusy then (n, none)
  else if env.now < n.nextHelloMs then (n, none)
  else if !env.serializeOk then (n, none)
  else (handleHelloResponse cfg n env.now env.helloInp, some .hello)

/-- trySessionPoll firing conditions. -/
def trySessionPoll (cfg : Config) (n : NodeSt) (env : TickEnv) :
    NodeSt × Option CtrlReq :=
  if n.httpBusy then (n, none)
  else if env.now < n.nextSessionPollMs then (n, none)
  else if !env.serializeOk then (n, none)
  else (trySessionPollHandle cfg n env.now env.sessionInp, some .sessionPoll)

/-- tryApprove firing conditions, including the missing-MAC latch and the
snprintf buffer guard. -/
def tryApprove (cfg : Config) (n : NodeSt) (env : TickEnv) :
    NodeSt × Option CtrlReq :=
  if n.httpBusy || n.approveMissingMacFailed then (n, none)
  else if !cstrNonempty cfg.approveEndpointPath then (n, none)
  else if env.now < n.nextApproveMs then (n, none)
  else if !(n.pairingCodeValid && !(n.pairingCode = "")) then
    ({ n with nextApproveMs := u32 (env.now + cfgOrDefault cfg.approveRetryMs 3000) },
     none)
  else if !env.macAvailable then
    ({ n with approveMissingMacFailed := true }, none)
  else if !env.approveBufOk then
    ({ n with nextApproveMs := u32 (env.now + 3000) }, none)
  else (tryApproveHandle cfg n env.now env.approveInp, some .approve)

/-- tryRegisterBySlot firing conditions. -/
def tryRegisterBySlot (cfg : Config) (n : NodeSt) (env : TickEnv) :
    NodeSt × Option CtrlReq :=
  if !(cfg.preferRegisterBySlot && cstrNonempty cfg.loginToken) then (n, none)
  else if n.httpBusy then (n, none)
  else if env.now < n.nextRegisterBySlotMs then (n, none)
  else if !env.serializeOk then (n, none)
  else (tryRegisterBySlotHandle cfg n env.now env.registerInp, some .registerBySlot)

/-- tryPairIfNeeded firing conditions (the isPairingExpired fallback is
unreachable when the code is valid). -/
def tryPairIfNeeded (cfg : Config) (n : NodeSt) (env : TickEnv) :
    NodeSt × Option CtrlReq :=
  if !(n.pairingCodeValid && !(n.pairingCode = "")) then (n, none)
  else if n.httpBusy then (n, none)
  else if env.now < n.nextPairMs then (n, none)
  else if isPairingExpired n then
    (let n' := clearPairingCode n
     let n' := setState cfg n' .hello
     ({ n' with nextHelloMs := u32 (env.now + 1000) }), none)
  else (tryPairHandle cfg n env.now env.pairInp, some .pair)

/-- trySessionRefresh firing conditions, with the source's Bool result. -/
def trySessionRefresh (cfg : Config) (n : NodeSt) (env : TickEnv) :
    NodeSt × Bool × Option CtrlReq :=
  if n.sessionToken = "" || n.httpBusy then (n, false, none)
  else if !env.serializeOk then (n, false, none)
  else
    let r := trySessionRefreshHandle cfg n env.now env.refreshInp
    (r.1, r.2, some .sessionRefresh)

/-- runStateMachine: one state-machine step of loopTick, returning the new
state and the control-plane HTTP requests issued during the step.  In
PENDING_POLL, register-by-slot, approve and session-poll attempts run in
order, each guarded as in the source. -/
def runStateMachine (cfg : Config) (n : NodeSt) (env : TickEnv) :
    NodeSt × List CtrlReq :=
  if !env.wifiConnected then (n, [])
  else
    match n.state with
    | .boot =>
        if !(n.sessionToken = "") then
          let r := trySessionRefresh cfg n env
          if r.2.1 then (r.1, r.2.2.toList)
          else
            let n' := setState cfg r.1 .hello
            ({ n' with nextHelloMs := u32 (env.now + n'.netBackoffMs) }, r.2.2.toList)
        else
          let n' := setState cfg n .hello
          ({ n' with nextHelloMs := env.now }, [])
    | .hello =>
        let r := tryHello cfg n env
        (r.1, r.2.toList)
    | .pairSubmit =>
        let r := tryPairIfNeeded cfg n env
        (r.1, r.2.toList)
    | .pendingPoll =>
        let r1 :=
          if cfg.preferRegisterBySlot && cstrNonempty cfg.loginToken then
            tryRegisterBySlot cfg n env
          else (n, none)
        let r2 :=
          if cfg.enableSelfApprove && cstrNonempty cfg.approveEndpointPath &&
              r1.1.sessionToken = "" && !r1.1.approveMissingMacFailed then
            tryApprove cfg r1.1 env
          else (r1.1, none)
        let r3 :=
          if r2.1.sessionToken = "" then trySessionPoll cfg r2.1 env
          else (r2.1, none)
        (r3.1, r1.2.toList ++ r2.2.toList ++ r3.2.toList)
    | .granted =>
        let n' := setState cfg n .active
        ({ n' with lastHeartbeatMs := env.now }, [])
    | .active => (env.tunnelStep n, [])
    | .tunnelConnecting => (env.tunnelStep n, [])
    | .tunnelConnected => (env.tunnelStep n, [])
    | .error =>
        let n' := { n with nextHelloMs := u32 (env.now + n.netBackoffMs) }
        (setState cfg n' .hello, [])

theorem setState_state (cfg : Config) (n : NodeSt) (s : NodeState) :
    (setState cfg n s).state = s := by
  unfold setState
  split
  · assumption
  · dsimp only
    split <;> rfl

/-- setState never touches the session, pairing, backoff or schedule
fields. -/
theorem setState_fields (cfg : Config) (n : NodeSt) (s : NodeState) :
    (setState cfg n s).sessionToken = n.sessionToken ∧
    (setState cfg n s).pairingCode = n.pairingCode ∧
    (setState cfg n s).pairingCodeValid = n.pairingCodeValid ∧
    (setState cfg n s).netBackoffMs = n.netBackoffMs ∧
    (setState cfg n s).nextHelloMs = n.nextHelloMs := by
  unfold setState
  split
  · exact ⟨rfl, rfl, rfl, rfl, rfl⟩
  · dsimp only
    split <;> exact ⟨rfl, rfl, rfl, rfl, rfl⟩

/-- In state Hello the only control request a tick can fire is the hello
request. -/
theorem hello_state_fires_only_hello (cfg : Config) (m : NodeSt) (env : TickEnv)
    (hm : m.state = .hello) :
    ∀ r ∈ (runStateMachine cfg m env).2, r = .hello := by
  intro r hr
  unfold runStateMachine at hr
  by_cases hw : env.wifiConnected
  · simp only [hw, Bool.not_true, Bool.false_eq_true, if_false, hm] at hr
    unfold tryHello at hr
    split at hr
    · simp at hr
    · split at hr
      · simp at hr
      · split at hr
        · simp at hr
        · simp at hr
          exact hr
  · simp only [Bool.not_eq_true] at hw
    simp [hw] at hr

/-- The common effect of a 401/403/410 on the session-poll endpoint. -/
theorem sessionPoll_auth_fail (cfg : Config) (n : NodeSt) (now : Nat)
    (status : Int) (doc : Option SessionDoc)
    (hs : status = 401 ∨ status = 403 ∨ status = 410) :
    (trySessionPollHandle cfg n now (.resp status doc)).sessionToken = "" ∧
    (trySessionPollHandle cfg n now (.resp status doc)).pairingCode = "" ∧
    (trySessionPollHandle cfg n now (.resp status doc)).pairingCodeValid = false ∧
    (trySessionPollHandle cfg n now (.resp status doc)).state = .hello ∧
    (trySessionPollHandle cfg n now (.resp status doc)).netBackoffMs =
      advanceNetBackoff n.netBackoffMs ∧
    (trySessionPollHandle cfg n now (.resp status doc)).nextHelloMs =
      u32 (now + advanceNetBackoff n.netBackoffMs) := by
  have h404 : ¬ (status = 404) := by rcases hs with h | h | h <;> omega
  unfold trySessionPollHandle
  dsimp only
  rw [if_neg h404, if_pos hs]
  dsimp only
  refine ⟨?_, ?_, ?_, ?_, ?_, ?_⟩ <;>
    simp [clearPairingCode, setState_fields, setState_state]

/-- The common effect of a 401/403/410 on the approve endpoint. -/
theorem approve_auth_fail (cfg : Config) (n : NodeSt) (now : Nat)
    (status : Int) (mm : Bool) (doc : Option ApproveDoc)
    (hs : status = 401 ∨ status = 403 ∨ status = 410) :
    (tryApproveHandle cfg n now (.resp status mm doc)).sessionToken = "" ∧
    (tryApproveHandle cfg n now (.resp status mm doc)).pairingCode = "" ∧
    (tryApproveHandle cfg n now (.resp status mm doc)).pairingCodeValid = false ∧
    (tryApproveHandle cfg n now (.resp status mm doc)).state = .hello ∧
    (tryApproveHandle cfg n now (.resp status mm doc)).netBackoffMs =
      advanceNetBackoff n.netBackoffMs ∧
    (tryApproveHandle cfg n now (.resp status mm doc)).nextHelloMs =
      u32 (now + advanceNetBackoff n.netBackoffMs) := by
  have h400 : ¬ (status = 400 ∧ mm = true) := by
    rcases hs with h | h | h <;> (intro hc; omega)
  unfold tryApproveHandle
  dsimp only
  rw [if_neg h400, if_pos hs]
  dsimp only
  refine ⟨?_, ?_, ?_, ?_, ?_, ?_⟩ <;>
    simp [clearPairingCode, setState_fields, setState_state]

/-- C1: after a 401/403/410 response delivered by the session-poll or the
approve endpoint, the session token is empty, the pairing code is cleared,
the state is Hello, the net backoff has been advanced, the next hello is due
after the (advanced, i.e. current) net backoff, and every control-plane HTTP
request a subsequent tick fires is the hello request. -/
theorem auth_fail_recovers_to_hello (cfg : Config) (n : NodeSt) (now : Nat)
    (status : Int) (hs : status = 401 ∨ status = 403 ∨ status = 410) :
    (∀ doc : Option SessionDoc,
      (trySessionPollHandle cfg n now (.resp status doc)).sessionToken = "" ∧
      (trySessionPollHandle cfg n now (.resp status doc)).pairingCode = "" ∧
      (trySessionPollHandle cfg n now (.resp status doc)).pairingCodeValid = false ∧
      (trySessionPollHandle cfg n now (.resp status doc)).state = .hello ∧
      (trySessionPollHandle cfg n now (.resp status doc)).nextHelloMs =
        u32 (now + (trySessionPollHandle cfg n now (.resp status doc)).netBackoffMs) ∧
      (∀ env : TickEnv, ∀ r ∈
          (runStateMachine cfg (trySessionPollHandle cfg n now (.resp status doc)) env).2,
        r = .hello)) ∧
    (∀ (mm : Bool) (doc : Option ApproveDoc),
      (tryApproveHandle cfg n now (.resp status mm doc)).sessionToken = "" ∧
      (tryApproveHandle cfg n now (.resp status mm doc)).pairingCode = "" ∧
      (tryApproveHandle cfg n now (.resp status mm doc)).pairingCodeValid = false ∧
      (tryApproveHandle cfg n now (.resp status mm doc)).state = .hello ∧
      (tryApproveHandle cfg n now (.resp status mm doc)).nextHelloMs =
        u32 (now + (tryApproveHandle cfg n now (.resp status mm doc)).netBackoffMs) ∧
      (∀ env : TickEnv, ∀ r ∈
          (runStateMachine cfg (tryApproveHandle cfg n now (.resp status mm doc)) env).2,
        r = .hello)) := by
  constructor
  · intro doc
    obtain ⟨h1, h2, h3, h4, h5, h6⟩ := sessionPoll_auth_fail cfg n now status doc hs
    exact ⟨h1, h2, h3, h4, by rw [h6, h5],
      fun env => hello_state_fires_only_hello cfg _ env h4⟩
  · intro mm doc
    obtain ⟨h1, h2, h3, h4, h5, h6⟩ := approve_auth_fail cfg n now status mm doc hs
    exact ⟨h1, h2, h3, h4, by rw [h6, h5],
      fun env => hello_state_fires_only_hello cfg _ env h4⟩

/-- A node in PENDING_POLL with a session to lose, used as witness input. -/
def c1Node : NodeSt :=
  { state := .pendingPoll, sessionToken := "tok", pairingCode := "AB",
    pairingCodeValid := true, netBackoffMs := 2000 }

/-- Witness for auth_fail_recovers_to_hello: a concrete 403 on the session
poll clears the session and pairing, lands in Hello and schedules hello. -/
theorem auth_fail_recovers_to_hello_witness :
    (trySessionPollHandle {} c1Node 5000 (.resp 403 none)).sessionToken = "" ∧
    (trySessionPollHandle {} c1Node 5000 (.resp 403 none)).pairingCode = "" ∧
    (trySessionPollHandle {} c1Node 5000 (.resp 403 none)).pairingCodeValid = false ∧
    (trySessionPollHandle {} c1Node 5000 (.resp 403 none)).state = .hello ∧
    (trySessionPollHandle {} c1Node 5000 (.resp 403 none)).nextHelloMs =
      u32 (5000 + (trySessionPollHandle {} c1Node 5000 (.resp 403 none)).netBackoffMs) ∧
    (∀ env : TickEnv, ∀ r ∈
        (runStateMachine {} (trySessionPollHandle {} c1Node 5000 (.resp 403 none)) env).2,
      r = .hello) :=
  (auth_fail_recovers_to_hello {} c1Node 5000 403 (by decide)).1 none

theorem optReqLen (o : Option CtrlReq) : o.toList.length ≤ 1 := by
  cases o <;> simp

theorem tryHello_len (cfg : Config) (n : NodeSt) (env : TickEnv) :
    (tryHello cfg n env).2.toList.length ≤ 1 := optReqLen _

/-- C2 (amended): one tick issues at most three control-plane HTTP requests,
and at most one in every state other than PENDING_POLL; http_busy only
prevents overlapping requests, not several sequential requests within the
PENDING_POLL tick, where the register-by-slot, approve and session-poll
attempts each may fire one request. -/
theorem tick_request_bound (cfg : Config) (n : NodeSt) (env : TickEnv) :
    (runStateMachine cfg n env).2.length ≤ 3 ∧
    (n.state ≠ .pendingPoll → (runStateMachine cfg n env).2.length ≤ 1) := by
  have hle1 : n.state ≠ .pendingPoll → (runStateMachine cfg n env).2.length ≤ 1 := by
    intro hne
    unfold runStateMachine
    by_cases hw : env.wifiConnected
    · simp only [hw, Bool.not_true, Bool.false_eq_true, if_false]
      cases hst : n.state
      · dsimp only
        split
        · split
          · exact optReqLen _
          · exact optReqLen _
        · simp
      · exact optReqLen _
      · exact optReqLen _
      · exact absurd hst hne
      · simp
      · simp
      · simp
      · simp
      · simp
    · simp only [Bool.not_eq_true] at hw
      simp [hw]
  refine ⟨?_, hle1⟩
  by_cases hpp : n.state = .pendingPoll
  · unfold runStateMachine
    by_cases hw : env.wifiConnected
    · simp only [hw, Bool.not_true, Bool.false_eq_true, if_false, hpp]
      rw [List.length_append, List.length_append]
      exact le_trans
        (Nat.add_le_add (Nat.add_le_add (optReqLen _) (optReqLen _)) (optReqLen _))
        (by norm_num)
    · simp only [Bool.not_eq_true] at hw
      simp [hw]
  · exact le_trans (hle1 hpp) (by norm_num)

/-- Witness for tick_request_bound at a concrete node in Hello. -/
theorem tick_request_bound_witness :
    (runStateMachine {} { state := .hello } { now := 0 }).2.length ≤ 3 ∧
    (({ state := .hello } : NodeSt).state ≠ .pendingPoll →
      (runStateMachine {} { state := .hello } { now := 0 }).2.length ≤ 1) :=
  tick_request_bound {} { state := .hello } { now := 0 }

/-- Configuration with register-by-slot preferred and self-approve enabled. -/
def c2Cfg : Config :=
  { hubBaseUrl := some "https://h", slotId := some "s1",
    preferRegisterBySlot := true, loginToken := some "L",
    enableSelfApprove := true,
    approveEndpointPath := some "/api/device/approve" }

/-- A PENDING_POLL node with all attempts due. -/
def c2Node : NodeSt :=
  { state := .pendingPoll, pairingCode := "AB", pairingCodeValid := true }

/-- A tick in which all three exchanges come back 500. -/
def c2Env : TickEnv :=
  { now := 1000, registerInp := .resp 500 none,
    approveInp := .resp 500 false none, sessionInp := .resp 500 none }

/-- C2 counterexample: a single PENDING_POLL tick fires three control-plane
HTTP requests (register-by-slot, approve, session-poll) — http_busy is
cleared after each synchronous request, so it does not limit a tick to one
request. -/
theorem tick_request_bound_cex :
    (runStateMachine c2Cfg c2Node c2Env).2 =
      [.registerBySlot, .approve, .sessionPoll] ∧
    ¬ ((runStateMachine c2Cfg c2Node c2Env).2.length ≤ 1) := by
  exact ⟨by decide, by decide⟩

theorem take31_ne_empty (s : String) (h : s ≠ "") : s.take 31 ≠ "" := by
  intro hc
  apply h
  have hd := congrArg String.data hc
  rw [String.data_take] at hd
  have hnil : s.data = [] := by
    cases hds : s.data with
    | nil => rfl
    | cons a l => rw [hds] at hd; simp at hd
  cases s
  simp at hnil
  simp [hnil]

/-- C4 (amended): after a 2xx hello response with a parseable body, DENIED
enters Error; a pairing code with self-approve enabled and an approve
endpoint configured enters PendingPoll; a pairing code otherwise enters
PairSubmit; and a response without a pairing code (e.g. PENDING/APPROVED)
leaves the machine in Hello — not PendingPoll. -/
theorem hello_transition (cfg : Config) (n : NodeSt) (now : Nat) (status : Int)
    (d : HelloDoc) (h2 : 200 ≤ status ∧ status < 300) :
    ((d.status.getD "" = "DENIED") →
      (handleHelloResponse cfg n now (.resp status (some d))).state = .error) ∧
    (d.status.getD "" ≠ "DENIED" → d.pairingCode.getD "" ≠ "" →
      (cfg.enableSelfApprove && cstrNonempty cfg.approveEndpointPath) = true →
      (handleHelloResponse cfg n now (.resp status (some d))).state = .pendingPoll) ∧
    (d.status.getD "" ≠ "DENIED" → d.pairingCode.getD "" ≠ "" →
      (cfg.enableSelfApprove && cstrNonempty cfg.approveEndpointPath) = false →
      (handleHelloResponse cfg n now (.resp status (some d))).state = .pairSubmit) ∧
    (d.status.getD "" ≠ "DENIED" → d.pairingCode.getD "" = "" →
      (handleHelloResponse cfg n now (.resp status (some d))).state = .hello) := by
  have hne410 : ¬ (status = 410) := by omega
  have hne403 : ¬ (status = 403) := by omega
  have hne401 : ¬ (status = 401) := by omega
  have hrange : ¬ (status < 200 ∨ 300 ≤ status) := by omega
  unfold handleHelloResponse
  dsimp only
  rw [if_neg hne410, if_neg hne403, if_neg hne401, if_neg hrange]
  have hvalid : ∀ pc exp, pc ≠ "" →
      (storePairingFromHello n pc exp).pairingCodeValid = true := by
    intro pc exp hpc
    unfold storePairingFromHello
    rw [if_neg hpc]
    simp [take31_ne_empty pc hpc]
  refine ⟨?_, ?_, ?_, ?_⟩
  · intro hd
    rw [if_pos hd]
    simp [setState_state]
  · intro hd hpc hsa
    rw [if_neg hd, if_pos hpc]
    simp only [hvalid _ _ hpc, hsa, if_true, Bool.true_eq_false]
    simp [setState_state]
  · intro hd hpc hsa
    rw [if_neg hd, if_pos hpc]
    simp only [hvalid _ _ hpc, hsa, if_true, Bool.false_eq_true]
    simp [setState_state]
  · intro hd hpc
    rw [if_neg hd,
      if_neg (show ¬ (d.pairingCode.getD "" ≠ "") from by simp [hpc])]
    simp [clearPairingCode, setState_state]

/-- Witness for hello_transition: a 200 PENDING with pairing code "AB" and
self-approve enabled moves to PendingPoll. -/
theorem hello_transition_witness :
    (handleHelloResponse
        { enableSelfApprove := true, approveEndpointPath := some "/api/device/approve" }
        { state := .hello } 0
        (.resp 200 (some { status := some "PENDING", pairingCode := some "AB" }))).state =
      .pendingPoll :=
  (hello_transition
      { enableSelfApprove := true, approveEndpointPath := some "/api/device/approve" }
      { state := .hello } 0 200 { status := some "PENDING", pairingCode := some "AB" }
      (by decide)).2.1 (by decide) (by decide) (by decide)

/-- C4 counterexample: a 2xx PENDING response without a pairing code leaves
the machine in Hello, not PendingPoll as claimed. -/
theorem hello_transition_cex :
    (handleHelloResponse
        { enableSelfApprove := true, approveEndpointPath := some "/api/device/approve" }
        { state := .hello } 0 (.resp 200 (some { status := some "PENDING" }))).state =
      .hello ∧
    NodeState.hello ≠ NodeState.pendingPoll := by
  exact ⟨by decide, by decide⟩

/-- k consecutive hello connect failures (handleHelloResponse with a failed
exchange), clock pinned at 0 so nextHelloMs is the next-due delta. -/
def iterHelloFail (cfg : Config) : Nat → NodeSt → NodeSt
  | 0, n => n
  | k + 1, n => iterHelloFail cfg k (handleHelloResponse cfg n 0 .fail)

/-- C6 (amended): from net_backoff = 2000, consecutive hello connect
failures produce next-due deltas 4000, 8000, 16000, 32000, 60000 (the
backoff is advanced before the next-due is computed, and clamps at 60000
from the fifth failure on); a sixth failure stays at 60000; a following 2xx
response with a parseable body resets the net backoff to 2000. -/
theorem net_backoff_growth :
    (iterHelloFail {} 1 { state := .hello }).nextHelloMs = 4000 ∧
    (iterHelloFail {} 2 { state := .hello }).nextHelloMs = 8000 ∧
    (iterHelloFail {} 3 { state := .hello }).nextHelloMs = 16000 ∧
    (iterHelloFail {} 4 { state := .hello }).nextHelloMs = 32000 ∧
    (iterHelloFail {} 5 { state := .hello }).nextHelloMs = 60000 ∧
    (iterHelloFail {} 6 { state := .hello }).nextHelloMs = 60000 ∧
    (handleHelloResponse {} (iterHelloFail {} 6 { state := .hello }) 0
        (.resp 200 (some { status := some "PENDING" }))).netBackoffMs = 2000 := by
  decide

/-- C6 counterexample: the first connect failure from net_backoff = 2000
schedules the next hello 4000 ms out, not 2000 ms: advanceNetBackoff runs
before the next-due time is computed. -/
theorem net_backoff_growth_cex :
    (handleHelloResponse {} { state := .hello } 0 .fail).nextHelloMs = 4000 ∧
    (4000 : Nat) ≠ 2000 := by
  exact ⟨by decide, by decide⟩

/-! ## Heartbeat (simpler variant)

The richest variant stubs its heartbeat (tryHeartbeat only refreshes
lastHeartbeatMs_ and its call in runStateMachine is commented out); the
simpler bundled variant implements it fully in sendHeartbeat/processActive,
with kInitialBackoffMs = 1000 and kMaxBackoffMs = 30000.  That variant is
embedded here.  The platform readings (RSSI, free heap), the nonce and the
HTTP outcome are environment inputs; responseToJson failing to produce a
JSON document is hbDoc = none. -/

structure SimpleCfg where
  slotId : String := ""
  firmwareVersion : String := ""
  capabilities : List String := []
  heartbeatIntervalMs : Nat := 0
  blinkOnHeartbeat : Bool := false

structure SimpleNode where
  state : NodeState := .boot
  sessionToken : String := ""
  sessionExpiresAtMs : Nat := 0
  lastHeartbeatMs : Nat := 0
  ledState : Bool := false
  netBackoffMs : Nat := 1000
  nextNetActionMs : Nat := 0
deriving DecidableEq

/-- capabilitiesHash of the simpler variant: h = h*31 + byte over the
concatenated capability strings (uint32), rendered %08X. -/
def capsHash (caps : List String) : Nat :=
  caps.foldl (fun h s => s.toList.foldl (fun h c => u32 (h * 31 + c.toNat % 256)) h) 0

def hex8Upper (n : Nat) : String :=
  String.mk ((List.range 8).reverse.map (fun i => hexDigitUpper (n / 16 ^ i % 16)))

/-- isSessionValid: token present and (no expiry recorded or not yet
reached). -/
def isSessionValid (n : SimpleNode) (now : Nat) : Bool :=
  !(n.sessionToken = "") &&
    (n.sessionExpiresAtMs = 0 || decide (now < n.sessionExpiresAtMs))

def clearSession (n : SimpleNode) : SimpleNode :=
  { n with sessionToken := "", sessionExpiresAtMs := 0 }

def transitionTo (n : SimpleNode) (s : NodeState) : SimpleNode :=
  if n.state = s then n else { n with state := s }

/-- scheduleNextNetwork: next due after the given delay (or the current net
backoff when 0), then double the backoff capped at 30000. -/
def scheduleNextNetwork (n : SimpleNode) (now delayMs : Nat) : SimpleNode :=
  { n with nextNetActionMs := u32 (now + (if delayMs = 0 then n.netBackoffMs else delayMs)),
           netBackoffMs := min (u32 (n.netBackoffMs * 2)) 30000 }

/-- The POST /api/device/heartbeat request body and Authorization header. -/
structure HeartbeatReq where
  path : String
  slotId : String
  nonce : String
  firmware : String
  uptimeMs : Nat
  rssi : Int
  freeHeap : Nat
  capabilitiesHash : String
  ledState : Bool
  authBearer : Option String
deriving DecidableEq

structure HeartbeatDoc where
  ttlSeconds : Option Nat := none
deriving DecidableEq

structure HbEnv where
  now : Nat := 0
  wifiConnected : Bool := true
  httpBeginOk : Bool := true
  nonce : String := ""
  rssi : Int := 0
  freeHeap : Nat := 0
  hbCode : Int := 0
  hbDoc : Option HeartbeatDoc := none

/-- sendHeartbeat: skipped without a valid session or Wi-Fi; posts the
payload with the Bearer header; a non-JSON response only reschedules;
401/403 clears the session and falls back to Hello; a 2xx refreshes
session_expires_at_ms from ttl_seconds, optionally blinks, resets the
backoff and schedules the next heartbeat one interval out. -/
def sendHeartbeat (cfg : SimpleCfg) (n : SimpleNode) (env : HbEnv) :
    SimpleNode × Option HeartbeatReq :=
  if !(isSessionValid n env.now) then (n, none)
  else if !env.wifiConnected then (n, none)
  else if !env.httpBeginOk then (scheduleNextNetwork n env.now 0, none)
  else
    let req : HeartbeatReq :=
      { path := "/api/device/heartbeat", slotId := cfg.slotId, nonce := env.nonce,
        firmware := cfg.firmwareVersion, uptimeMs := env.now, rssi := env.rssi,
        freeHeap := env.freeHeap,
        capabilitiesHash := hex8Upper (capsHash cfg.capabilities),
        ledState := n.ledState,
        authBearer := if n.sessionToken ≠ "" then some ("Bearer " ++ n.sessionToken)
                      else none }
    match env.hbDoc with
    | none => (scheduleNextNetwork n env.now 0, some req)
    | some d =>
        if env.hbCode = 401 ∨ env.hbCode = 403 then
          (scheduleNextNetwork (transitionTo (clearSession n) .hello) env.now 0,
           some req)
        else if env.hbCode < 200 ∨ 300 ≤ env.hbCode then
          (scheduleNextNetwork n env.now 0, some req)
        else
          let n' := match d.ttlSeconds with
            | some ttl => { n with sessionExpiresAtMs := u32 (env.now + ttl * 1000) }
            | none => n
          let n' := if cfg.blinkOnHeartbeat then { n' with ledState := !n'.ledState }
                    else n'
          ({ n' with lastHeartbeatMs := env.now, netBackoffMs := 1000,
                     nextNetActionMs := u32 (env.now + cfg.heartbeatIntervalMs) },
           some req)

/-- The heartbeat clause of processActive: fire when the net action is due. -/
def processActiveHeartbeat (cfg : SimpleCfg) (n : SimpleNode) (env : HbEnv) :
    SimpleNode × Option HeartbeatReq :=
  if n.nextNetActionMs ≤ env.now then sendHeartbeat cfg n env else (n, none)

/-- C5 (amended): in the fully implemented heartbeat variant, while the
session is valid a due tick in Active POSTs /api/device/heartbeat with
slot_id, nonce, firmware, uptime_ms, rssi, free_heap, capabilities_hash and
led_state under Authorization: Bearer session_token; a 2xx with ttl_seconds
sets session_expires_at_ms = now + ttl*1000 and the next heartbeat one
heartbeat_interval_ms out; a 401/403 whose body parses as JSON clears the
session and returns to Hello; a 401/403 whose body is not parseable JSON
(responseToJson fails, hbDoc = none) only reschedules after the net
backoff, keeping the session token and the state unchanged. -/
theorem heartbeat_behavior (cfg : SimpleCfg) (n : SimpleNode) (env : HbEnv)
    (hvalid : isSessionValid n env.now = true) (hwifi : env.wifiConnected = true)
    (hbegin : env.httpBeginOk = true) (hdue : n.nextNetActionMs ≤ env.now) :
    (processActiveHeartbeat cfg n env).2 = some
      { path := "/api/device/heartbeat", slotId := cfg.slotId, nonce := env.nonce,
        firmware := cfg.firmwareVersion, uptimeMs := env.now, rssi := env.rssi,
        freeHeap := env.freeHeap,
        capabilitiesHash := hex8Upper (capsHash cfg.capabilities),
        ledState := n.ledState,
        authBearer := some ("Bearer " ++ n.sessionToken) } ∧
    (∀ d ttl, env.hbDoc = some d → d.ttlSeconds = some ttl →
      200 ≤ env.hbCode → env.hbCode < 300 →
      (processActiveHeartbeat cfg n env).1.sessionExpiresAtMs =
        u32 (env.now + ttl * 1000) ∧
      (processActiveHeartbeat cfg n env).1.nextNetActionMs =
        u32 (env.now + cfg.heartbeatIntervalMs) ∧
      (processActiveHeartbeat cfg n env).1.lastHeartbeatMs = env.now) ∧
    (∀ d, env.hbDoc = some d → (env.hbCode = 401 ∨ env.hbCode = 403) →
      (processActiveHeartbeat cfg n env).1.sessionToken = "" ∧
      (processActiveHeartbeat cfg n env).1.sessionExpiresAtMs = 0 ∧
      (processActiveHeartbeat cfg n env).1.state = .hello) ∧
    (env.hbDoc = none →
      (processActiveHeartbeat cfg n env).1.sessionToken = n.sessionToken ∧
      (processActiveHeartbeat cfg n env).1.state = n.state ∧
      (processActiveHeartbeat cfg n env).1.nextNetActionMs =
        u32 (env.now + n.netBackoffMs)) := by
  have htok : ¬ (n.sessionToken = "") := by
    intro h
    unfold isSessionValid at hvalid
    simp [h] at hvalid
  unfold processActiveHeartbeat sendHeartbeat
  rw [if_pos hdue]
  simp only [hvalid, Bool.not_true, Bool.false_eq_true, if_false, hwifi, hbegin]
  refine ⟨?_, ?_, ?_, ?_⟩
  · cases henv : env.hbDoc with
    | none => simp [htok]
    | some d =>
      simp only [henv]
      split
      · simp [htok]
      · split
        · simp [htok]
        · cases d.ttlSeconds <;> split <;> simp [htok]
  · intro d ttl hdoc httl hlo hhi
    have hne : ¬ (env.hbCode = 401 ∨ env.hbCode = 403) := by omega
    have hrange : ¬ (env.hbCode < 200 ∨ 300 ≤ env.hbCode) := by omega
    simp only [hdoc]
    rw [if_neg hne, if_neg hrange]
    simp only [httl]
    split <;> simp
  · intro d hdoc hauth
    simp only [hdoc]
    rw [if_pos hauth]
    unfold scheduleNextNetwork transitionTo clearSession
    split <;> simp_all
  · intro hdoc
    simp only [hdoc]
    unfold scheduleNextNetwork
    simp

/-- Counterexample to the original C5 wording: a delivered 401 whose body is
not parseable JSON (hbDoc = none) leaves the session token set and the state
Active, because sendHeartbeat returns on the responseToJson failure before
the 401/403 check. -/
theorem heartbeat_behavior_cex :
    (processActiveHeartbeat { slotId := "s1" }
        { state := .active, sessionToken := "tok" }
        { now := 100, hbCode := 401, hbDoc := none }).2.isSome = true ∧
    (processActiveHeartbeat { slotId := "s1" }
        { state := .active, sessionToken := "tok" }
        { now := 100, hbCode := 401, hbDoc := none }).1.sessionToken = "tok" ∧
    (processActiveHeartbeat { slotId := "s1" }
        { state := .active, sessionToken := "tok" }
        { now := 100, hbCode := 401, hbDoc := none }).1.state = .active := by
  refine ⟨?_, ?_, ?_⟩ <;> decide

/-- Witness for heartbeat_behavior on a concrete Active node. -/
theorem heartbeat_behavior_witness :
    (processActiveHeartbeat { slotId := "s1", heartbeatIntervalMs := 5000 }
        { state := .active, sessionToken := "tok" }
        { now := 100, nonce := "abc", hbCode := 200,
          hbDoc := some { ttlSeconds := some 60 } }).2 = some
      { path := "/api/device/heartbeat", slotId := "s1", nonce := "abc",
        firmware := "", uptimeMs := 100, rssi := 0, freeHeap := 0,
        capabilitiesHash := hex8Upper (capsHash []), ledState := false,
        authBearer := some ("Bearer " ++ "tok") } :=
  (heartbeat_behavior { slotId := "s1", heartbeatIntervalMs := 5000 }
      { state := .active, sessionToken := "tok" }
      { now := 100, nonce := "abc", hbCode := 200,
        hbDoc := some { ttlSeconds := some 60 } }
      (by decide) rfl rfl (by decide)).1

end OrbiSync
